import Mathlib

/-!
# azqr: scan orchestration and resource scanners

A shallow embedding of

* `cmd/azqr/scan.go` : `waitForReviews`, `scanRunner` and the part of `scan`
  that drives them;
* `internal/scanners/wps/wps.go` : `WebPubSubScanner.Scan`, `listWebPubSub`;
* `internal/analyzers/{aks,cosmosdb,sigr}_analyzer.go` : `Review` and the
  listing helpers;
* `internal/scanners/cr/rules.go` : `ContainerRegistryScanner.GetRules`;
* `internal/scanners/appi/rules.go` : `AppInsightsScanner.GetRecommendations`.

Conventions.  A Go slice that may be `nil` is an `Option (List α)` (`none` is
`nil`), a pointer field of an SDK struct is an `Option`, a Go `error` result is
an `Option GoError` (`none` is `nil`), and a function that may panic on a nil
dereference returns an `Option` whose `none` is the panic.
-/

namespace Azqr

/-! ## Go values -/

/-- A Go `error` value that is not nil.  `Canceled` and `DeadlineExceeded` are
the two values a `context.Context` reports from `Err()`. -/
inductive GoError where
  | Canceled
  | DeadlineExceeded
  | other (msg : String)
  deriving DecidableEq, Repr

/-- A Go slice, `none` being the nil slice. -/
abbrev Slice (α : Type) := Option (List α)

/-- The elements of a slice; a nil slice has none (`append(xs, s...)`). -/
def Slice.elems {α : Type} : Slice α → List α
  | none => []
  | some xs => xs

/-! ## `waitForReviews` (scan.go, lines 215-234) -/

/-- What one `select` of `waitForReviews` receives: the context is done and
`rc.Ctx.Err()` is `e`, an error arrives on `rc.ErrCh`, or a result list arrives
on `rc.ResCh`. -/
inductive Event (R : Type) where
  | ctxDone (e : GoError)
  | errCh (e : GoError)
  | resCh (res : Slice R)

/-- The local variables `received` and `reviews` of `waitForReviews`. -/
structure WaitState (R : Type) where
  received : Int
  reviews : List R

/-- The value returned by `waitForReviews`: the pointer to the aggregate
(`none` is the nil pointer) and the error. -/
abbrev WaitResult (R : Type) := Option (List R) × Option GoError

/-- One iteration of the `for { select { ... } }` loop: either the loop goes on
with new locals, or the function returns. -/
def selectCase {R : Type} (nb : Int) (st : WaitState R) : Event R → WaitState R ⊕ WaitResult R
  | .ctxDone e => .inr (none, some e)
  | .errCh e => .inr (none, some e)
  | .resCh res =>
    let received := st.received + 1
    let reviews := st.reviews ++ res.elems
    if received ≥ nb then .inr (some reviews, none) else .inl ⟨received, reviews⟩

/-- The loop of `waitForReviews` over the events it will receive.  When the
events run out the function blocks in `select` for ever (`none`); otherwise it
returns its result together with the events it has not consumed. -/
def waitLoop {R : Type} (nb : Int) : WaitState R → List (Event R) → Option (WaitResult R × List (Event R))
  | _, [] => none
  | st, ev :: rest =>
    match selectCase nb st ev with
    | .inl st' => waitLoop nb st' rest
    | .inr out => some (out, rest)

/-- `waitForReviews(rc, nb)`: `received := 0`, `reviews := make(..., 0)`, then
the loop. -/
def waitForReviews {R : Type} (nb : Int) (events : List (Event R)) : Option (WaitResult R × List (Event R)) :=
  waitLoop nb ⟨0, []⟩ events

/-! ## `scanRunner`, its tasks and the driving part of `scan` (scan.go, lines 118-133, 185-213)

The goroutines of one resource-group scan are a transition system.  The
scheduler and the outside world are the `Action`s; `step` says what the code
does on each of them and is `none` when the action is not enabled. -/

/-- The counter of `semaphore.Weighted` (golang.org/x/sync): `size` permits,
`cur` of them held. -/
structure Weighted where
  size : Int
  cur : Int
  deriving DecidableEq, Repr

/-- `semaphore.NewWeighted(n)`. -/
def NewWeighted (n : Int) : Weighted := ⟨n, 0⟩

/-- Whether `Acquire(ctx, 1)` can take a permit now. -/
def Weighted.canAcquire (w : Weighted) : Bool := decide (w.size - w.cur ≥ 1)

/-- The counter after `Acquire(ctx, 1)` returned nil. -/
def Weighted.Acquire (w : Weighted) : Weighted := { w with cur := w.cur + 1 }

/-- The counter after `Release(1)`. -/
def Weighted.Release (w : Weighted) : Weighted := { w with cur := w.cur - 1 }

/-- The capacity `scanRunner` gives its semaphore (lines 187-190) for the flag
value `concurrency` and `n = len(*svcAnalysers)`. -/
def semCapacity (concurrency : Int) (n : Nat) : Int :=
  if concurrency ≤ 0 then (n : Int) else concurrency

/-- Where the goroutine of one scanner is (lines 200-211). -/
inductive TaskState (R : Type) where
  /-- the loop of `scanRunner` has not reached this scanner -/
  | unspawned
  /-- `go func` was executed (permit held), the body has not begun -/
  | spawned
  /-- the guard of line 203 let the task through; `Scan` is not yet called -/
  | ready
  /-- inside `(*a).Scan(r, scanContext)` -/
  | scanning
  /-- at `rc.ErrCh <- err` (line 208), `res` still to be sent -/
  | sendingErr (e : GoError) (res : Slice R)
  /-- at `rc.ResCh <- res` (line 210) -/
  | sendingRes (res : Slice R)
  /-- returned; the deferred `sem.Release(1)` has run -/
  | done
  deriving DecidableEq, Repr

/-- The task holds a permit: it was started and has not returned. -/
def TaskState.holdsPermit {R : Type} : TaskState R → Bool
  | .unspawned => false
  | .done => false
  | _ => true

/-- The task body has not begun: the guard of line 203 is still ahead. -/
def TaskState.notStarted {R : Type} : TaskState R → Bool
  | .unspawned => true
  | .spawned => true
  | _ => false

/-- Where `scanRunner` itself is. -/
inductive RunnerState where
  /-- about to run iteration `i` of the loop of line 191 (past the loop when
  `i` is the number of scanners) -/
  | loop (i : Nat)
  /-- `Acquire` failed with `e`; at `rc.ErrCh <- err` (line 193) -/
  | sendingErr (e : GoError)
  /-- returned at line 194 -/
  | returned
  deriving DecidableEq, Repr

/-- Where the caller `scan` is for this resource group (lines 126-132). -/
inductive CollectorState (R : Type) where
  /-- inside `waitForReviews`, blocked in `select` -/
  | waiting (received : Int) (reviews : List R)
  /-- `waitForReviews` returned `out` -/
  | returned (out : WaitResult R)
  /-- the error was not nil and `cancel()` was called; `log.Fatal` is next -/
  | cancelled
  /-- `log.Fatal` ended the process -/
  | exited
  deriving DecidableEq, Repr

/-- The process has ended. -/
def CollectorState.hasExited {R : Type} : CollectorState R → Bool
  | .exited => true
  | _ => false

/-- The state of one resource-group scan. -/
structure Sys (R : Type) where
  /-- what `rc.Ctx.Err()` returns -/
  ctxErr : Option GoError
  sem : Weighted
  runner : RunnerState
  /-- one entry per scanner of `*svcAnalysers` -/
  tasks : List (TaskState R)
  collector : CollectorState R
  deriving DecidableEq, Repr

/-- The moves of the scan. -/
inductive Action (R : Type) where
  /-- line 192 returns nil and line 200 starts the goroutine of the next scanner -/
  | acquire
  /-- line 192 returns `rc.Ctx.Err()` -/
  | acquireFail
  /-- the send of line 193 is received by `waitForReviews` -/
  | runnerSend
  /-- the body of task `i` begins: the guard of lines 203-205 -/
  | start (i : Nat)
  /-- task `i` calls `Scan` (line 206) -/
  | invokeScan (i : Nat)
  /-- `Scan` of task `i` returns `(res, err)` -/
  | scanReturn (i : Nat) (res : Slice R) (err : Option GoError)
  /-- the send of line 208 by task `i` is received by `waitForReviews` -/
  | sendErr (i : Nat)
  /-- the send of line 210 by task `i` is received by `waitForReviews` -/
  | sendRes (i : Nat)
  /-- `waitForReviews` takes the case `<-rc.Ctx.Done()` -/
  | ctxDone
  /-- `scan` finds `err != nil` and calls `cancel()` (line 129) -/
  | cancel
  /-- `log.Fatal(err)` (line 130) -/
  | fatal
  /-- a deadline set on the context passes -/
  | expire
  deriving DecidableEq, Repr

/-- The state when `scan` executes `go scanRunner(...)` and enters
`waitForReviews(&rc, len(serviceScanners))` for `n` scanners. -/
def Sys.init (R : Type) (n : Nat) (concurrency : Int) : Sys R :=
  { ctxErr := none
    sem := NewWeighted (semCapacity concurrency n)
    runner := .loop 0
    tasks := List.replicate n .unspawned
    collector := .waiting 0 [] }

/-- The collector receives `ev` in its `select`; not enabled unless it is
waiting.  `nb` is `len(serviceScanners)`. -/
def Sys.deliver {R : Type} (s : Sys R) (ev : Event R) : Option (Sys R) :=
  match s.collector with
  | .waiting received reviews =>
    match selectCase (s.tasks.length : Int) ⟨received, reviews⟩ ev with
    | .inl st => some { s with collector := .waiting st.received st.reviews }
    | .inr out => some { s with collector := .returned out }
  | _ => none

/-- Task `i` moves to state `t`. -/
def Sys.setTask {R : Type} (s : Sys R) (i : Nat) (t : TaskState R) : Sys R :=
  { s with tasks := s.tasks.set i t }

/-- Task `i` returns: the deferred `sem.Release(1)` runs. -/
def Sys.finish {R : Type} (s : Sys R) (i : Nat) : Sys R :=
  { s with tasks := s.tasks.set i .done, sem := s.sem.Release }

/-- One move of the scan; `none` when the move is not enabled. -/
def step {R : Type} (s : Sys R) (a : Action R) : Option (Sys R) :=
  if s.collector.hasExited then none else
  match a with
  | .acquire =>
    match s.runner with
    | .loop i =>
      if i < s.tasks.length ∧ s.sem.canAcquire = true then
        some { s with sem := s.sem.Acquire, runner := .loop (i + 1), tasks := s.tasks.set i .spawned }
      else none
    | _ => none
  | .acquireFail =>
    match s.runner, s.ctxErr with
    | .loop i, some e => if i < s.tasks.length then some { s with runner := .sendingErr e } else none
    | _, _ => none
  | .runnerSend =>
    match s.runner with
    | .sendingErr e => (s.deliver (.errCh e)).map fun s' => { s' with runner := .returned }
    | _ => none
  | .start i =>
    match s.tasks[i]? with
    | some .spawned =>
      if some GoError.Canceled = s.ctxErr then some (s.finish i) else some (s.setTask i .ready)
    | _ => none
  | .invokeScan i =>
    match s.tasks[i]? with
    | some .ready => some (s.setTask i .scanning)
    | _ => none
  | .scanReturn i res err =>
    match s.tasks[i]? with
    | some .scanning =>
      match err with
      | some e => some (s.setTask i (.sendingErr e res))
      | none => some (s.setTask i (.sendingRes res))
    | _ => none
  | .sendErr i =>
    match s.tasks[i]? with
    | some (.sendingErr e res) => (s.deliver (.errCh e)).map fun s' => s'.setTask i (.sendingRes res)
    | _ => none
  | .sendRes i =>
    match s.tasks[i]? with
    | some (.sendingRes res) => (s.deliver (.resCh res)).map fun s' => s'.finish i
    | _ => none
  | .ctxDone =>
    match s.ctxErr with
    | some e => s.deliver (.ctxDone e)
    | none => none
  | .cancel =>
    match s.collector with
    | .returned (_, some _) =>
      some { s with collector := .cancelled, ctxErr := some (s.ctxErr.getD .Canceled) }
    | _ => none
  | .fatal =>
    match s.collector with
    | .cancelled => some { s with collector := .exited }
    | _ => none
  | .expire =>
    match s.ctxErr with
    | none => some { s with ctxErr := some .DeadlineExceeded }
    | some _ => none

/-- The state after a sequence of moves, `none` when one of them is not enabled. -/
def run {R : Type} : Sys R → List (Action R) → Option (Sys R)
  | s, [] => some s
  | s, a :: rest => (step s a).bind fun s' => run s' rest

/-- The number of tasks that hold a permit. -/
def Sys.running {R : Type} (s : Sys R) : Nat := s.tasks.countP TaskState.holdsPermit

/-! ## Listing through an SDK pager

`listWebPubSub` (wps.go, lines 53-65), and the pager branch of `listClusters`,
`listDatabases` and `listSignalR` in the analyzers, are the same loop:
`for pager.More() { resp, err := pager.NextPage(ctx); if err != nil { return nil, err };
acc = append(acc, resp.Value...) }; return acc, nil`. -/

/-- What an SDK pager will answer to the successive `NextPage` calls: an error,
or a page of pointers to resources (a nil pointer is `none`).  `More()` holds
while answers remain. -/
abbrev Pager (α : Type) := List (Except GoError (List (Option α)))

/-- The paging loop, from the accumulated list `acc`. -/
def pagerLoop {α : Type} : List (Option α) → Pager α → Slice (Option α) × Option GoError
  | acc, [] => (some acc, none)
  | _, .error e :: _ => (none, some e)
  | acc, .ok v :: rest => pagerLoop (acc ++ v) rest

/-- `strings.HasPrefix(s, p)`. -/
def HasPrefix (s p : String) : Bool := p.toList.isPrefixOf s.toList

/-- `strings.Contains(s, sub)`. -/
def Contains (s sub : String) : Bool := s.toList.tails.any fun t => sub.toList.isPrefixOf t

/-! ## `WebPubSubScanner` (internal/scanners/wps/wps.go) -/

/-- The fields of `armwebpubsub.ResourceInfo` that `Scan` reads; each is a
pointer. -/
structure WebPubSubResourceInfo where
  ID : Option String
  Name : Option String
  Type_ : Option String
  Location : Option String
  deriving DecidableEq, Repr

/-- The fields of `azqr.ScannerConfig` that `Scan` reads. -/
structure ScannerConfig where
  SubscriptionID : String
  SubscriptionName : String
  deriving DecidableEq, Repr

/-- The record `azqr.AzqrServiceResult` as `Scan` fills it; `RR` is the type of
the engine's output. -/
structure AzqrServiceResult (RR : Type) where
  SubscriptionID : String
  SubscriptionName : String
  ResourceGroup : String
  ServiceName : String
  Type_ : String
  Location : String
  Recommendations : RR
  deriving DecidableEq, Repr

/-- A `WebPubSubScanner` after `Init`, with what it calls outside wps.go:
the answers of its client's pager, its registry `c.GetRecommendations()`,
`azqr.RecommendationEngine.EvaluateRecommendations` and
`azqr.GetResourceGroupFromResourceID`.  `Rules` is the registry type, `SC` the
scan context type. -/
structure WebPubSubScanner (Rules SC RR : Type) where
  config : ScannerConfig
  pager : Pager WebPubSubResourceInfo
  GetRecommendations : Rules
  EvaluateRecommendations : Rules → WebPubSubResourceInfo → SC → RR
  GetResourceGroupFromResourceID : String → String

/-- `listWebPubSub` (lines 53-65). -/
def WebPubSubScanner.listWebPubSub {Rules SC RR : Type} (c : WebPubSubScanner Rules SC RR) :
    Slice (Option WebPubSubResourceInfo) × Option GoError :=
  pagerLoop [] c.pager

/-- The loop of lines 37-49 from the accumulated `results`; `none` is the panic
of a nil pointer dereference (`*w.ID`, `*w.Name`, `*w.Type`, `*w.Location`). -/
def WebPubSubScanner.scanLoop {Rules SC RR : Type} (c : WebPubSubScanner Rules SC RR) (scanContext : SC) :
    List (AzqrServiceResult RR) → List (Option WebPubSubResourceInfo) → Option (List (AzqrServiceResult RR))
  | results, [] => some results
  | _, none :: _ => none
  | results, some w :: rest =>
    let rr := c.EvaluateRecommendations c.GetRecommendations w scanContext
    match w.ID, w.Name, w.Type_, w.Location with
    | some id, some name, some ty, some loc =>
      WebPubSubScanner.scanLoop c scanContext
        (results ++ [{ SubscriptionID := c.config.SubscriptionID
                       SubscriptionName := c.config.SubscriptionName
                       ResourceGroup := c.GetResourceGroupFromResourceID id
                       ServiceName := name
                       Type_ := ty
                       Location := loc
                       Recommendations := rr }]) rest
    | _, _, _, _ => none

/-- `WebPubSubScanner.Scan` (lines 26-51): the returned list and error, `none`
when the call panics. -/
def WebPubSubScanner.Scan {Rules SC RR : Type} (c : WebPubSubScanner Rules SC RR) (scanContext : SC) :
    Option (Slice (AzqrServiceResult RR) × Option GoError) :=
  match c.listWebPubSub with
  | (_, some err) => some (none, some err)
  | (WebPubSub, none) =>
    match c.scanLoop scanContext [] WebPubSub.elems with
    | some results => some (some results, none)
    | none => none

/-! ## The analyzers (internal/analyzers) -/

/-- The record `AzureServiceResult` as the analyzers fill it. -/
structure AzureServiceResult where
  SubscriptionID : String
  ResourceGroup : String
  ServiceName : String
  SKU : String
  SLA : String
  Type_ : String
  Location : String
  CAFNaming : Bool
  AvailabilityZones : Bool
  PrivateEndpoints : Bool
  DiagnosticSettings : Bool
  deriving DecidableEq, Repr

/-- What `Review` returns: the list and the error, `none` when it panics. -/
abbrev ReviewResult := Option (Slice AzureServiceResult × Option GoError)

/-! ### `AKSAnalyzer` (aks_analyzer.go) -/

/-- The field of `armcontainerservice.ManagedClusterAgentPoolProfile` read by
`Review`. -/
structure ManagedClusterAgentPoolProfile where
  AvailabilityZones : Slice (Option String)
  deriving DecidableEq, Repr

/-- The field of `ManagedClusterAPIServerAccessProfile` read by `Review`. -/
structure ManagedClusterAPIServerAccessProfile where
  EnablePrivateCluster : Option Bool
  deriving DecidableEq, Repr

/-- The fields of `ManagedClusterProperties` read by `Review`. -/
structure ManagedClusterProperties where
  AgentPoolProfiles : Slice (Option ManagedClusterAgentPoolProfile)
  APIServerAccessProfile : Option ManagedClusterAPIServerAccessProfile
  deriving DecidableEq, Repr

/-- The field of `ManagedClusterSKU` read by `Review`. -/
structure ManagedClusterSKU where
  Tier : Option String
  deriving DecidableEq, Repr

/-- The fields of `armcontainerservice.ManagedCluster` read by `Review`. -/
structure ManagedCluster where
  ID : Option String
  Name : Option String
  Type_ : Option String
  Location : Option String
  SKU : Option ManagedClusterSKU
  Properties : Option ManagedClusterProperties
  deriving DecidableEq, Repr

/-- An `AKSAnalyzer` after `Init`, with what it calls outside aks_analyzer.go:
`a.diagnosticsSettings.HasDiagnostics` and the answers of the pager of
`clustersClient` for a resource group. -/
structure AKSAnalyzer where
  subscriptionID : String
  HasDiagnostics : String → Bool × Option GoError
  pager : String → Pager ManagedCluster
  listClustersFunc : Option (String → Slice (Option ManagedCluster) × Option GoError)

/-- `listClusters` (lines 93-109). -/
def AKSAnalyzer.listClusters (a : AKSAnalyzer) (resourceGroupName : String) :
    Slice (Option ManagedCluster) × Option GoError :=
  match a.listClustersFunc with
  | none => pagerLoop [] (a.pager resourceGroupName)
  | some f => f resourceGroupName

/-- The loop of lines 56-60 from the current value of `zones`; `none` is the
panic on a nil profile. -/
def aksZones : Bool → List (Option ManagedClusterAgentPoolProfile) → Option Bool
  | zones, [] => some zones
  | _, none :: _ => none
  | zones, some profile :: rest =>
    if profile.AvailabilityZones.isNone ||
        (profile.AvailabilityZones.isSome && decide (profile.AvailabilityZones.elems.length ≤ 1)) then
      aksZones false rest
    else aksZones zones rest

/-- The SLA of lines 63-69. -/
def aksSLA (sku : String) (zones : Bool) : String :=
  if sku = "Paid" then
    if zones then "99.95%" else "99.9%"
  else "None"

/-- Lines 55-88 for one cluster, after `HasDiagnostics` succeeded; `none` is a
panic on a nil pointer. -/
def AKSAnalyzer.reviewCluster (a : AKSAnalyzer) (resourceGroupName : String) (c : ManagedCluster)
    (hasDiagnostics : Bool) : Option AzureServiceResult :=
  match c.Properties with
  | none => none
  | some props =>
    match aksZones true props.AgentPoolProfiles.elems with
    | none => none
    | some zones =>
      match c.SKU.bind (fun k => k.Tier) with
      | none => none
      | some sku =>
        let sla := aksSLA sku zones
        let privateEndpoints : Option Bool :=
          match props.APIServerAccessProfile with
          | none => some false
          | some ap => ap.EnablePrivateCluster
        match privateEndpoints, c.Name, c.Type_, c.Location with
        | some pe, some name, some ty, some loc =>
          some { SubscriptionID := a.subscriptionID
                 ResourceGroup := resourceGroupName
                 ServiceName := name
                 SKU := sku
                 SLA := sla
                 Type_ := ty
                 Location := loc
                 CAFNaming := HasPrefix name "aks"
                 AvailabilityZones := zones
                 PrivateEndpoints := pe
                 DiagnosticSettings := hasDiagnostics }
        | _, _, _, _ => none

/-- The loop of lines 49-89 from the accumulated `results`. -/
def AKSAnalyzer.reviewLoop (a : AKSAnalyzer) (resourceGroupName : String) :
    List AzureServiceResult → List (Option ManagedCluster) → ReviewResult
  | results, [] => some (some results, none)
  | _, none :: _ => none
  | results, some c :: rest =>
    match c.ID with
    | none => none
    | some id =>
      match a.HasDiagnostics id with
      | (_, some err) => some (none, some err)
      | (hasDiagnostics, none) =>
        match a.reviewCluster resourceGroupName c hasDiagnostics with
        | none => none
        | some r => AKSAnalyzer.reviewLoop a resourceGroupName (results ++ [r]) rest

/-- `AKSAnalyzer.Review` (lines 41-91). -/
def AKSAnalyzer.Review (a : AKSAnalyzer) (resourceGroupName : String) : ReviewResult :=
  match a.listClusters resourceGroupName with
  | (_, some err) => some (none, some err)
  | (clusters, none) => a.reviewLoop resourceGroupName [] clusters.elems

/-! ### `CosmosDBAnalyzer` (cosmosdb_analyzer.go) -/

/-- The field of `armcosmos.Location` read by `Review`. -/
structure CosmosLocation where
  IsZoneRedundant : Option Bool
  deriving DecidableEq, Repr

/-- The fields of `DatabaseAccountGetProperties` read by `Review`; of the
private endpoint connections only the number is used. -/
structure DatabaseAccountGetProperties where
  Locations : Slice (Option CosmosLocation)
  DatabaseAccountOfferType : Option String
  PrivateEndpointConnections : Slice Unit
  deriving DecidableEq, Repr

/-- The fields of `armcosmos.DatabaseAccountGetResults` read by `Review`. -/
structure DatabaseAccountGetResults where
  ID : Option String
  Name : Option String
  Type_ : Option String
  Location : Option String
  Properties : Option DatabaseAccountGetProperties
  deriving DecidableEq, Repr

/-- A `CosmosDBAnalyzer` after `Init`, with `HasDiagnostics` and the pager
answers. -/
structure CosmosDBAnalyzer where
  subscriptionID : String
  HasDiagnostics : String → Bool × Option GoError
  pager : String → Pager DatabaseAccountGetResults
  listDatabasesFunc : Option (String → Slice (Option DatabaseAccountGetResults) × Option GoError)

/-- `listDatabases` (lines 90-106). -/
def CosmosDBAnalyzer.listDatabases (c : CosmosDBAnalyzer) (resourceGroupName : String) :
    Slice (Option DatabaseAccountGetResults) × Option GoError :=
  match c.listDatabasesFunc with
  | none => pagerLoop [] (c.pager resourceGroupName)
  | some f => f resourceGroupName

/-- The locals of lines 55-58. -/
structure CosmosLocals where
  sla : String
  availabilityZones : Bool
  availabilityZonesNotEnabledInALocation : Bool
  numberOfLocations : Int
  deriving DecidableEq, Repr

/-- The loop of lines 59-67; `none` is the panic on a nil location or a nil
`IsZoneRedundant`. -/
def cosmosLocations : CosmosLocals → List (Option CosmosLocation) → Option CosmosLocals
  | st, [] => some st
  | _, none :: _ => none
  | st, some location :: rest =>
    match location.IsZoneRedundant with
    | none => none
    | some true =>
      cosmosLocations { st with numberOfLocations := st.numberOfLocations + 1
                                availabilityZones := true
                                sla := "99.995%" } rest
    | some false =>
      cosmosLocations { st with numberOfLocations := st.numberOfLocations + 1
                                availabilityZonesNotEnabledInALocation := true } rest

/-- Lines 55-85 for one account, after `HasDiagnostics` succeeded. -/
def CosmosDBAnalyzer.reviewDatabase (c : CosmosDBAnalyzer) (resourceGroupName : String)
    (database : DatabaseAccountGetResults) (hasDiagnostics : Bool) : Option AzureServiceResult :=
  match database.Properties with
  | none => none
  | some props =>
    match cosmosLocations ⟨"99.99%", false, false, 0⟩ props.Locations.elems with
    | none => none
    | some st =>
      let sla :=
        if st.availabilityZones && decide (st.numberOfLocations ≥ 2) &&
            !st.availabilityZonesNotEnabledInALocation then "99.999%" else st.sla
      match database.Name, props.DatabaseAccountOfferType, database.Type_, database.Location with
      | some name, some offer, some ty, some loc =>
        some { SubscriptionID := c.subscriptionID
               ResourceGroup := resourceGroupName
               ServiceName := name
               SKU := offer
               SLA := sla
               Type_ := ty
               Location := loc
               CAFNaming := HasPrefix name "cosmos"
               AvailabilityZones := st.availabilityZones
               PrivateEndpoints := decide (props.PrivateEndpointConnections.elems.length > 0)
               DiagnosticSettings := hasDiagnostics }
      | _, _, _, _ => none

/-- The loop of lines 49-86 from the accumulated `results`. -/
def CosmosDBAnalyzer.reviewLoop (c : CosmosDBAnalyzer) (resourceGroupName : String) :
    List AzureServiceResult → List (Option DatabaseAccountGetResults) → ReviewResult
  | results, [] => some (some results, none)
  | _, none :: _ => none
  | results, some database :: rest =>
    match database.ID with
    | none => none
    | some id =>
      match c.HasDiagnostics id with
      | (_, some err) => some (none, some err)
      | (hasDiagnostics, none) =>
        match c.reviewDatabase resourceGroupName database hasDiagnostics with
        | none => none
        | some r => CosmosDBAnalyzer.reviewLoop c resourceGroupName (results ++ [r]) rest

/-- `CosmosDBAnalyzer.Review` (lines 41-88). -/
def CosmosDBAnalyzer.Review (c : CosmosDBAnalyzer) (resourceGroupName : String) : ReviewResult :=
  match c.listDatabases resourceGroupName with
  | (_, some err) => some (none, some err)
  | (databases, none) => c.reviewLoop resourceGroupName [] databases.elems

/-! ### `SignalRAnalyzer` (sigr_analyzer.go) -/

/-- The field of `armsignalr.ResourceSKU` read by `Review`. -/
structure SignalRResourceSKU where
  Name : Option String
  deriving DecidableEq, Repr

/-- The field of `armsignalr.Properties` read by `Review`; only the number of
private endpoint connections is used. -/
structure SignalRProperties where
  PrivateEndpointConnections : Slice Unit
  deriving DecidableEq, Repr

/-- The fields of `armsignalr.ResourceInfo` read by `Review`. -/
structure SignalRResourceInfo where
  ID : Option String
  Name : Option String
  Type_ : Option String
  Location : Option String
  SKU : Option SignalRResourceSKU
  Properties : Option SignalRProperties
  deriving DecidableEq, Repr

/-- A `SignalRAnalyzer` after `Init`, with `HasDiagnostics` and the pager
answers. -/
structure SignalRAnalyzer where
  subscriptionID : String
  HasDiagnostics : String → Bool × Option GoError
  pager : String → Pager SignalRResourceInfo
  listSignalRFunc : Option (String → Slice (Option SignalRResourceInfo) × Option GoError)

/-- `listSignalR` (lines 78-94). -/
def SignalRAnalyzer.listSignalR (c : SignalRAnalyzer) (resourceGroupName : String) :
    Slice (Option SignalRResourceInfo) × Option GoError :=
  match c.listSignalRFunc with
  | none => pagerLoop [] (c.pager resourceGroupName)
  | some f => f resourceGroupName

/-- Lines 55-73 for one resource, after `HasDiagnostics` succeeded. -/
def SignalRAnalyzer.reviewSignalR (c : SignalRAnalyzer) (resourceGroupName : String)
    (signalr : SignalRResourceInfo) (hasDiagnostics : Bool) : Option AzureServiceResult :=
  match signalr.SKU.bind (fun k => k.Name) with
  | none => none
  | some sku =>
    let zones := if Contains sku "Premium" then true else false
    match signalr.Name, signalr.Type_, signalr.Location, signalr.Properties with
    | some name, some ty, some loc, some props =>
      some { SubscriptionID := c.subscriptionID
             ResourceGroup := resourceGroupName
             ServiceName := name
             SKU := sku
             SLA := "99.9%"
             Type_ := ty
             Location := loc
             CAFNaming := HasPrefix name "sigr"
             AvailabilityZones := zones
             PrivateEndpoints := decide (props.PrivateEndpointConnections.elems.length > 0)
             DiagnosticSettings := hasDiagnostics }
    | _, _, _, _ => none

/-- The loop of lines 49-74 from the accumulated `results`. -/
def SignalRAnalyzer.reviewLoop (c : SignalRAnalyzer) (resourceGroupName : String) :
    List AzureServiceResult → List (Option SignalRResourceInfo) → ReviewResult
  | results, [] => some (some results, none)
  | _, none :: _ => none
  | results, some signalr :: rest =>
    match signalr.ID with
    | none => none
    | some id =>
      match c.HasDiagnostics id with
      | (_, some err) => some (none, some err)
      | (hasDiagnostics, none) =>
        match c.reviewSignalR resourceGroupName signalr hasDiagnostics with
        | none => none
        | some r => SignalRAnalyzer.reviewLoop c resourceGroupName (results ++ [r]) rest

/-- `SignalRAnalyzer.Review` (lines 41-76). -/
def SignalRAnalyzer.Review (c : SignalRAnalyzer) (resourceGroupName : String) : ReviewResult :=
  match c.listSignalR resourceGroupName with
  | (_, some err) => some (none, some err)
  | (signalr, none) => c.reviewLoop resourceGroupName [] signalr.elems

/-! ## The rules of `ContainerRegistryScanner` (internal/scanners/cr/rules.go) -/

/-- The field of `armcontainerregistry.RetentionPolicy` read by the rules;
`PolicyStatus` is a string type. -/
structure RetentionPolicy where
  Status : Option String
  deriving DecidableEq, Repr

/-- The field of `armcontainerregistry.Policies` read by the rules. -/
structure Policies where
  RetentionPolicy : Option RetentionPolicy
  deriving DecidableEq, Repr

/-- The fields of `armcontainerregistry.RegistryProperties` read by the rules;
of the private endpoint connections only the number is used. -/
structure RegistryProperties where
  ZoneRedundancy : Option String := none
  PrivateEndpointConnections : Slice Unit := none
  AnonymousPullEnabled : Option Bool := none
  AdminUserEnabled : Option Bool := none
  Policies : Option Policies := none
  deriving DecidableEq, Repr

/-- The field of `armcontainerregistry.SKU` read by the rules. -/
structure RegistrySKU where
  Name : Option String
  deriving DecidableEq, Repr

/-- The fields of `armcontainerregistry.Registry` read by the rules; `Tags` is
the Go map `map[string]*string` as its list of entries (empty for nil). -/
structure Registry where
  ID : Option String
  Name : Option String := none
  SKU : Option RegistrySKU := none
  Properties : Option RegistryProperties := none
  Tags : List (String × Option String) := []
  deriving DecidableEq, Repr

/-- `armcontainerregistry.PolicyStatusDisabled`. -/
def PolicyStatusDisabled : String := "disabled"

/-- `armcontainerregistry.ZoneRedundancyEnabled`. -/
def ZoneRedundancyEnabled : String := "Enabled"

/-- The index of `scanners.ScanContext` read by `cr-001`: the Go map
`DiagnosticsSettings map[string]bool`, as the partial function it is. -/
structure ScanContext where
  DiagnosticsSettings : String → Option Bool

/-- The `Eval` of `cr-001` on a registry `service` (the target after its type
assertion) and a scan context: `(violated, detail)`, or `none` for the panic on
a nil `ID`.  `ToLower` is `strings.ToLower`. -/
def cr001Eval (ToLower : String → String) (service : Registry) (scanContext : ScanContext) :
    Option (Bool × String) :=
  match service.ID with
  | none => none
  | some id =>
    let ok := (scanContext.DiagnosticsSettings (ToLower id)).isSome
    some (!ok, "")

/-- The `Eval` of `cr-002` (lines 33-37); `none` is the panic on a nil
`Properties` or `ZoneRedundancy`. -/
def cr002Eval (i : Registry) (_scanContext : ScanContext) : Option (Bool × String) :=
  match i.Properties.bind (fun q => q.ZoneRedundancy) with
  | none => none
  | some z =>
    let zones := decide (z = ZoneRedundancyEnabled)
    some (!zones, "")

/-- The `Eval` of `cr-003` (lines 45-47). -/
def cr003Eval (_target : Registry) (_scanContext : ScanContext) : Option (Bool × String) :=
  some (false, "99.95%")

/-- The `Eval` of `cr-004` (lines 55-59). -/
def cr004Eval (i : Registry) (_scanContext : ScanContext) : Option (Bool × String) :=
  match i.Properties with
  | none => none
  | some props =>
    let pe := decide (props.PrivateEndpointConnections.elems.length > 0)
    some (!pe, "")

/-- The `Eval` of `cr-005` (lines 67-70). -/
def cr005Eval (i : Registry) (_scanContext : ScanContext) : Option (Bool × String) :=
  match i.SKU.bind (fun k => k.Name) with
  | none => none
  | some name => some (false, name)

/-- The `Eval` of `cr-006` (lines 78-82). -/
def cr006Eval (c : Registry) (_scanContext : ScanContext) : Option (Bool × String) :=
  match c.Name with
  | none => none
  | some name =>
    let caf := HasPrefix name "cr"
    some (!caf, "")

/-- The `Eval` of `cr-007` (lines 90-94). -/
def cr007Eval (c : Registry) (_scanContext : ScanContext) : Option (Bool × String) :=
  match c.Properties with
  | none => none
  | some props =>
    let apull :=
      match props.AnonymousPullEnabled with
      | none => false
      | some b => b
    some (apull, "")

/-- The `Eval` of `cr-008` (lines 102-106). -/
def cr008Eval (c : Registry) (_scanContext : ScanContext) : Option (Bool × String) :=
  match c.Properties with
  | none => none
  | some props =>
    let admin :=
      match props.AdminUserEnabled with
      | none => false
      | some b => b
    some (admin, "")

/-- The `Eval` of `cr-009` (lines 114-117). -/
def cr009Eval (c : Registry) (_scanContext : ScanContext) : Option (Bool × String) :=
  some (decide (c.Tags.length = 0), "")

/-- The `Eval` of `cr-010` (lines 125-131): the `||` chain, evaluated left to
right and stopping at the first true operand; `none` is the panic on a nil
`Properties`. -/
def cr010Eval (c : Registry) (_scanContext : ScanContext) : Option (Bool × String) :=
  match c.Properties with
  | none => none
  | some props =>
    match props.Policies with
    | none => some (true, "")
    | some policies =>
      match policies.RetentionPolicy with
      | none => some (true, "")
      | some retention =>
        match retention.Status with
        | none => some (true, "")
        | some status => some (decide (status = PolicyStatusDisabled), "")

/-- The constants `scanners.RulesCategory...` used in cr/rules.go. -/
inductive RulesCategory where
  | RulesCategoryMonitoringAndAlerting
  | RulesCategoryHighAvailability
  | RulesCategorySecurity
  | RulesCategoryGovernance
  deriving DecidableEq, Repr

/-- The constants `scanners.Impact...`. -/
inductive Impact where
  | ImpactLow
  | ImpactMedium
  | ImpactHigh
  deriving DecidableEq, Repr

/-- The record `scanners.AzureRule` for rules over a target of type `T`. -/
structure AzureRule (T : Type) where
  Id : String
  Category : RulesCategory
  Recommendation : String
  Impact : Impact
  Eval : T → ScanContext → Option (Bool × String)
  Url : String

/-- A Go map literal with string keys, as its entries in source order; the
compiler rejects a literal that repeats a constant key. -/
abbrev GoMap (V : Type) := List (String × V)

/-- `m[k]` with the presence flag. -/
def GoMap.find {V : Type} (m : GoMap V) (k : String) : Option V := m.lookup k

open RulesCategory Impact in
/-- `ContainerRegistryScanner.GetRules` (lines 14-135). -/
def GetRules (ToLower : String → String) : GoMap (AzureRule Registry) :=
  [ ("cr-001",
      { Id := "cr-001"
        Category := RulesCategoryMonitoringAndAlerting
        Recommendation := "ContainerRegistry should have diagnostic settings enabled"
        Impact := ImpactLow
        Eval := cr001Eval ToLower
        Url := "https://learn.microsoft.com/en-us/azure/container-registry/monitor-service" }),
    ("cr-002",
      { Id := "cr-002"
        Category := RulesCategoryHighAvailability
        Recommendation := "ContainerRegistry should have availability zones enabled"
        Impact := ImpactHigh
        Eval := cr002Eval
        Url := "https://learn.microsoft.com/en-us/azure/container-registry/zone-redundancy" }),
    ("cr-003",
      { Id := "cr-003"
        Category := RulesCategoryHighAvailability
        Recommendation := "ContainerRegistry should have a SLA"
        Impact := ImpactHigh
        Eval := cr003Eval
        Url := "https://www.azure.cn/en-us/support/sla/container-registry/" }),
    ("cr-004",
      { Id := "cr-004"
        Category := RulesCategorySecurity
        Recommendation := "ContainerRegistry should have private endpoints enabled"
        Impact := ImpactHigh
        Eval := cr004Eval
        Url := "https://learn.microsoft.com/en-us/azure/container-registry/container-registry-private-link" }),
    ("cr-005",
      { Id := "cr-005"
        Category := RulesCategoryHighAvailability
        Recommendation := "ContainerRegistry SKU"
        Impact := ImpactHigh
        Eval := cr005Eval
        Url := "https://learn.microsoft.com/en-us/azure/container-registry/container-registry-skus" }),
    ("cr-006",
      { Id := "cr-006"
        Category := RulesCategoryGovernance
        Recommendation := "ContainerRegistry Name should comply with naming conventions"
        Impact := ImpactLow
        Eval := cr006Eval
        Url := "https://learn.microsoft.com/en-us/azure/cloud-adoption-framework/ready/azure-best-practices/resource-abbreviations" }),
    ("cr-007",
      { Id := "cr-007"
        Category := RulesCategorySecurity
        Recommendation := "ContainerRegistry should have anonymous pull access disabled"
        Impact := ImpactMedium
        Eval := cr007Eval
        Url := "https://learn.microsoft.com/azure/container-registry/anonymous-pull-access#configure-anonymous-pull-access" }),
    ("cr-008",
      { Id := "cr-008"
        Category := RulesCategorySecurity
        Recommendation := "ContainerRegistry should have the Administrator account disabled"
        Impact := ImpactMedium
        Eval := cr008Eval
        Url := "https://learn.microsoft.com/azure/container-registry/container-registry-authentication-managed-identity" }),
    ("cr-009",
      { Id := "cr-009"
        Category := RulesCategoryGovernance
        Recommendation := "ContainerRegistry should have tags"
        Impact := ImpactLow
        Eval := cr009Eval
        Url := "https://learn.microsoft.com/en-us/azure/azure-resource-manager/management/tag-resources?tabs=json" }),
    ("cr-010",
      { Id := "cr-010"
        Category := RulesCategoryGovernance
        Recommendation := "ContainerRegistry should use retention policies"
        Impact := ImpactMedium
        Eval := cr010Eval
        Url := "https://learn.microsoft.com/en-us/azure/container-registry/container-registry-retention-policy" }) ]

/-! ## The rules of `AppInsightsScanner` (internal/scanners/appi/rules.go) -/

/-- The fields of `armapplicationinsights.Component` read by the rules. -/
structure Component where
  Name : Option String
  Tags : List (String × Option String) := []
  deriving DecidableEq, Repr

/-- The constants `scanners.Category...` used in appi/rules.go. -/
inductive Category where
  | CategoryHighAvailability
  | CategoryGovernance
  deriving DecidableEq, Repr

/-- The field `RecommendationType`: the zero value where the literal leaves it
out, or `scanners.TypeSLA`. -/
inductive RecommendationType where
  | zero
  | TypeSLA
  deriving DecidableEq, Repr

/-- The record `scanners.AzqrRecommendation` for rules over a target of type `T`. -/
structure AzqrRecommendation (T : Type) where
  RecommendationID : String
  ResourceType : String
  Category : Category
  Recommendation : String
  RecommendationType : RecommendationType := .zero
  Impact : Impact
  Eval : T → ScanContext → Option (Bool × String)
  LearnMoreUrl : String

/-- The `Eval` of `appi-001` (lines 23-25). -/
def appi001Eval (_target : Component) (_scanContext : ScanContext) : Option (Bool × String) :=
  some (false, "99.9%")

/-- The `Eval` of `appi-002` (lines 34-38); `none` is the panic on a nil `Name`. -/
def appi002Eval (c : Component) (_scanContext : ScanContext) : Option (Bool × String) :=
  match c.Name with
  | none => none
  | some name =>
    let caf := HasPrefix name "appi"
    some (!caf, "")

/-- The `Eval` of `appi-003` (lines 47-50). -/
def appi003Eval (c : Component) (_scanContext : ScanContext) : Option (Bool × String) :=
  some (decide (c.Tags.length = 0), "")

open Category Impact in
/-- `AppInsightsScanner.GetRecommendations` (lines 14-54). -/
def GetRecommendations : GoMap (AzqrRecommendation Component) :=
  [ ("appi-001",
      { RecommendationID := "appi-001"
        ResourceType := "Microsoft.Insights/components"
        Category := CategoryHighAvailability
        Recommendation := "Azure Application Insights SLA"
        RecommendationType := .TypeSLA
        Impact := ImpactHigh
        Eval := appi001Eval
        LearnMoreUrl := "https://www.azure.cn/en-us/support/sla/application-insights/index.html" }),
    ("appi-002",
      { RecommendationID := "appi-002"
        ResourceType := "Microsoft.Insights/components"
        Category := CategoryGovernance
        Recommendation := "Azure Application Insights Name should comply with naming conventions"
        Impact := ImpactLow
        Eval := appi002Eval
        LearnMoreUrl := "https://learn.microsoft.com/en-us/azure/cloud-adoption-framework/ready/azure-best-practices/resource-abbreviations" }),
    ("appi-003",
      { RecommendationID := "appi-003"
        ResourceType := "Microsoft.Insights/components"
        Category := CategoryGovernance
        Recommendation := "Azure Application Insights should have tags"
        Impact := ImpactLow
        Eval := appi003Eval
        LearnMoreUrl := "https://learn.microsoft.com/en-us/azure/azure-resource-manager/management/tag-resources?tabs=json" }) ]

/-- A lowercasing function that maps the letters `A`-`Z` only.  It agrees with
`strings.ToLower` on ASCII strings and differs from it on other letters; it is
used only to instantiate the parameter `ToLower` at ASCII resource IDs. -/
def asciiToLower (s : String) : String := ⟨s.toList.map Char.toLower⟩

/-- A WebPubSub resource whose ID, name, type and location are all set. -/
def WebPubSubResourceInfo.of (w : String × String × String × String) : WebPubSubResourceInfo :=
  { ID := some w.1, Name := some w.2.1, Type_ := some w.2.2.1, Location := some w.2.2.2 }

/-- A scanner whose listing fails on its second page with "throttled", after a
first page of one resource. -/
def exampleWps : WebPubSubScanner Unit Unit Nat :=
  { config := ⟨"sub-1", "Production"⟩
    pager := [.ok [some (.of ("/subscriptions/sub-1/resourceGroups/rg/w1", "w1", "t", "westeurope"))],
              .error (.other "throttled")]
    GetRecommendations := ()
    EvaluateRecommendations := fun _ w _ => (w.Name.getD "").length
    GetResourceGroupFromResourceID := fun _ => "rg" }

/-- A scanner whose listing succeeds with one resource that has no `Name`. -/
def exampleWpsNoName : WebPubSubScanner Unit Unit Nat :=
  { exampleWps with
    pager := [.ok [some { ID := some "id1", Name := none, Type_ := some "t", Location := some "westeurope" }]] }

/-- A scanner whose listing returns two resources on two pages. -/
def exampleWpsOk : WebPubSubScanner Unit Unit Nat :=
  { exampleWps with
    pager := [.ok [some (.of ("id1", "w1", "t", "westeurope"))],
              .ok [some (.of ("id2", "wps2", "t", "northeurope"))]] }

/-- `HasDiagnostics` failing with "denied" on the resource "id2" only. -/
def exampleHasDiagnostics (id : String) : Bool × Option GoError :=
  if id = "id2" then (false, some (.other "denied")) else (true, none)

/-- An analyzer listing two clusters; `HasDiagnostics` fails on the second. -/
def exampleAKS : AKSAnalyzer :=
  { subscriptionID := "sub-1"
    HasDiagnostics := exampleHasDiagnostics
    pager := fun _ => [.ok [some ⟨some "id1", some "aks1", some "t", some "l", some ⟨some "Paid"⟩,
                                 some ⟨some [some ⟨some [some "1", some "2"]⟩], none⟩⟩],
                       .ok [some ⟨some "id2", some "aks2", some "t", some "l", some ⟨some "Free"⟩,
                                 some ⟨some [], none⟩⟩]]
    listClustersFunc := none }

/-- An analyzer whose injected listing function returns a partial list together
with the error "throttled". -/
def exampleAKSListFails : AKSAnalyzer :=
  { exampleAKS with
    listClustersFunc := some fun _ => (some [some ⟨some "id1", some "aks1", some "t", some "l",
      some ⟨some "Paid"⟩, some ⟨some [], none⟩⟩], some (.other "throttled")) }

/-- An analyzer listing two accounts; `HasDiagnostics` fails on the second. -/
def exampleCosmos : CosmosDBAnalyzer :=
  { subscriptionID := "sub-1"
    HasDiagnostics := exampleHasDiagnostics
    pager := fun _ => [.ok [some ⟨some "id1", some "cosmos1", some "t", some "l",
                                 some ⟨some [some ⟨some true⟩], some "Standard", none⟩⟩,
                            some ⟨some "id2", some "cosmos2", some "t", some "l",
                                 some ⟨some [], some "Standard", none⟩⟩]]
    listDatabasesFunc := none }

/-- An analyzer whose pager fails on its first page. -/
def exampleCosmosListFails : CosmosDBAnalyzer :=
  { exampleCosmos with pager := fun _ => [.error (.other "throttled")] }

/-- An analyzer listing two resources; `HasDiagnostics` fails on the second. -/
def exampleSignalR : SignalRAnalyzer :=
  { subscriptionID := "sub-1"
    HasDiagnostics := exampleHasDiagnostics
    pager := fun _ => [.ok [some ⟨some "id1", some "sigr1", some "t", some "l", some ⟨some "Premium_P1"⟩,
                                 some ⟨none⟩⟩,
                            some ⟨some "id2", some "sigr2", some "t", some "l", some ⟨some "Free_F1"⟩,
                                 some ⟨none⟩⟩]]
    listSignalRFunc := none }

/-- An analyzer whose pager fails on its second page. -/
def exampleSignalRListFails : SignalRAnalyzer :=
  { exampleSignalR with pager := fun _ => [.ok [], .error (.other "throttled")] }

/-- A diagnostics index holding the one resource "R1", keyed by its lowercased
ID. -/
def exampleScanContext : ScanContext :=
  { DiagnosticsSettings := fun k => if k = asciiToLower "R1" then some true else none }

/-- The analyzer `exampleAKS` with a `HasDiagnostics` that never fails. -/
def exampleAKSOk : AKSAnalyzer :=
  { exampleAKS with HasDiagnostics := fun _ => (true, none) }

/-- An analyzer listing three accounts: one zone redundant location; two zone
redundant locations; two locations of which none is zone redundant. -/
def exampleCosmosOk : CosmosDBAnalyzer :=
  { subscriptionID := "sub-1"
    HasDiagnostics := fun _ => (false, none)
    pager := fun _ => [.ok [some ⟨some "id1", some "cosmos1", some "t", some "l",
                                 some ⟨some [some ⟨some true⟩], some "Standard", none⟩⟩,
                            some ⟨some "id2", some "db2", some "t", some "l",
                                 some ⟨some [some ⟨some true⟩, some ⟨some true⟩], some "Standard", none⟩⟩,
                            some ⟨some "id3", some "db3", some "t", some "l",
                                 some ⟨some [some ⟨some false⟩, some ⟨some false⟩], some "Standard", none⟩⟩]]
    listDatabasesFunc := none }

/-- The permit invariant: every task that holds a permit is counted by the
semaphore, and the semaphore never exceeds its capacity. -/
def Sys.PermitInv {R : Type} (s : Sys R) : Prop :=
  (s.running : Int) ≤ s.sem.cur ∧ s.sem.cur ≤ s.sem.size

/-- The task is not inside its body: not started, or returned. -/
def TaskState.idle {R : Type} : TaskState R → Bool
  | .unspawned => true
  | .spawned => true
  | .done => true
  | _ => false

/-- Task `i` has not begun its body, or has returned without calling `Scan`
since: the states a task can be in once the context is cancelled before it
starts. -/
def Sys.taskIdle {R : Type} (s : Sys R) (i : Nat) : Bool :=
  match s.tasks[i]? with
  | some t => t.idle
  | none => true

/-! ## Properties of `waitForReviews` -/

/-- A result delivery that does not complete the count is appended and the
loop goes on. -/
theorem waitLoop_result_more {R : Type} (nb : Int) (st : WaitState R) (r : Slice R)
    (rest : List (Event R)) (h : st.received + 1 < nb) :
    waitLoop nb st (Event.resCh r :: rest) = waitLoop nb ⟨st.received + 1, st.reviews ++ r.elems⟩ rest := by
  have h2 : ¬ st.received + 1 ≥ nb := by omega
  simp [waitLoop, selectCase, h2]

/-- The result delivery that completes the count makes the function return the
aggregate. -/
theorem waitLoop_result_last {R : Type} (nb : Int) (st : WaitState R) (r : Slice R)
    (rest : List (Event R)) (h : st.received + 1 ≥ nb) :
    waitLoop nb st (Event.resCh r :: rest) = some ((some (st.reviews ++ r.elems), none), rest) := by
  simp [waitLoop, selectCase, h]

/-- While fewer than `nb` result lists have been received, a run of result
deliveries is consumed whole and only appended to the aggregate. -/
theorem waitLoop_results {R : Type} (nb : Int) (rs : List (Slice R)) :
    ∀ (st : WaitState R) (rest : List (Event R)), st.received + rs.length < nb →
      waitLoop nb st (rs.map Event.resCh ++ rest)
        = waitLoop nb ⟨st.received + rs.length, st.reviews ++ (rs.map Slice.elems).flatten⟩ rest := by
  induction rs with
  | nil => intro st rest _; simp
  | cons r rs ih =>
    intro st rest h
    have h1 : st.received + 1 + (rs.length : Int) < nb := by
      simp only [List.length_cons, Nat.cast_add, Nat.cast_one] at h; omega
    rw [List.map_cons, List.cons_append, waitLoop_result_more nb st r _ (by omega),
      ih ⟨st.received + 1, st.reviews ++ r.elems⟩ rest h1]
    simp only [List.length_cons, Nat.cast_add, Nat.cast_one, List.map_cons, List.flatten_cons,
      List.append_assoc]
    congr 2
    omega

/-- Claim C1: for every `nb ≥ 1`, when an error delivery is received after `k < nb`
result deliveries (whatever lists they carried, whatever events follow),
`waitForReviews` returns that error with a nil aggregate, leaving the later
events unconsumed. -/
theorem waitForReviews_first_error {R : Type} (nb : Int) (rs : List (Slice R)) (e : GoError)
    (rest : List (Event R)) (hnb : 1 ≤ nb) (hk : (rs.length : Int) < nb) :
    waitForReviews nb (rs.map Event.resCh ++ Event.errCh e :: rest) = some ((none, some e), rest) := by
  have _ := hnb
  unfold waitForReviews
  rw [waitLoop_results nb rs ⟨0, []⟩ _ (by simpa using hk)]
  simp [waitLoop, selectCase]

/-- Witness of C1: two scanners, one result list `[10, 11]` delivered, then the
error "throttled"; a later result delivery stays unconsumed. -/
theorem waitForReviews_first_error_witness :
    (1 : Int) ≤ 2 ∧ (([some [10, 11]] : List (Slice Nat)).length : Int) < 2 ∧
    waitForReviews (2 : Int)
        ([some [10, 11]].map Event.resCh ++ Event.errCh (.other "throttled") :: [Event.resCh (some [12])])
      = some ((none, some (GoError.other "throttled")), [Event.resCh (some [12])]) :=
  ⟨by decide, by decide,
    waitForReviews_first_error 2 [some [10, 11]] (.other "throttled") [Event.resCh (some [12])]
      (by decide) (by decide)⟩

/-- Claim C2: for every `nb ≥ 1`, when the first `nb` events are the result
deliveries `r_1 .. r_nb`, `waitForReviews` returns no error and the aggregate
`r_1 ++ ... ++ r_nb` in delivery order, whose length is the sum of the lengths of
the delivered lists, and the events after the `nb`-th are left unconsumed. -/
theorem waitForReviews_success {R : Type} (nb : Int) (rs : List (Slice R))
    (rest : List (Event R)) (hnb : 1 ≤ nb) (hlen : (rs.length : Int) = nb) :
    waitForReviews nb (rs.map Event.resCh ++ rest)
        = some ((some (rs.map Slice.elems).flatten, none), rest) ∧
      (rs.map Slice.elems).flatten.length = (rs.map fun r => r.elems.length).sum := by
  refine ⟨?_, ?_⟩
  · obtain ⟨front, last, rfl⟩ : ∃ front last, rs = front ++ [last] := by
      rcases List.eq_nil_or_concat rs with h | ⟨front, last, h⟩
      · subst h; simp at hlen; omega
      · exact ⟨front, last, by simpa using h⟩
    have hf : (0 : Int) + (front.length : Int) < nb := by
      simp only [List.length_append, List.length_singleton, Nat.cast_add, Nat.cast_one] at hlen
      omega
    have hge : (0 : Int) + (front.length : Int) + 1 ≥ nb := by
      simp only [List.length_append, List.length_singleton, Nat.cast_add, Nat.cast_one] at hlen
      omega
    unfold waitForReviews
    rw [List.map_append, List.append_assoc, waitLoop_results nb front ⟨0, []⟩ _ hf,
      List.map_singleton, List.singleton_append, waitLoop_result_last nb _ last rest hge]
    simp
  · rw [List.length_flatten, List.map_map]
    rfl

/-- Witness of C2: three scanners delivering `[1, 2]`, a nil list and `[3]`. -/
theorem waitForReviews_success_witness :
    waitForReviews (3 : Int)
        (([some [1, 2], none, some [3]] : List (Slice Nat)).map Event.resCh ++ [Event.errCh .Canceled])
        = some ((some (([some [1, 2], none, some [3]] : List (Slice Nat)).map Slice.elems).flatten, none),
            [Event.errCh .Canceled]) ∧
      (([some [1, 2], none, some [3]] : List (Slice Nat)).map Slice.elems).flatten.length
        = (([some [1, 2], none, some [3]] : List (Slice Nat)).map fun r => r.elems.length).sum :=
  waitForReviews_success 3 [some [1, 2], none, some [3]] [Event.errCh .Canceled] (by decide) (by decide)

/-! ## Properties of `scanRunner` -/

/-- Claim C3: with `n` scanners, a concurrency value `c ≤ 0` gives the permit
counter capacity `n`, and the scan then starts from the same state, hence makes
the same moves, as with `concurrency = n`; a value `c ≥ 1` gives capacity `c`. -/
theorem scanRunner_capacity (R : Type) (n : Nat) (c : Int) :
    (c ≤ 0 → (Sys.init R n c).sem = NewWeighted (n : Int) ∧
        Sys.init R n c = Sys.init R n (n : Int) ∧
        ∀ moves : List (Action R), run (Sys.init R n c) moves = run (Sys.init R n (n : Int)) moves) ∧
    (1 ≤ c → (Sys.init R n c).sem = NewWeighted c ∧ (Sys.init R n c).sem.size = c) := by
  have hcap : ∀ d : Int, d ≤ 0 → semCapacity d n = (n : Int) := by
    intro d hd; simp [semCapacity, hd]
  have hself : semCapacity (n : Int) n = (n : Int) := by
    unfold semCapacity; split <;> rfl
  refine ⟨fun hc => ?_, fun hc => ?_⟩
  · have hinit : Sys.init R n c = Sys.init R n (n : Int) := by
      simp [Sys.init, hcap c hc, hself]
    exact ⟨by simp [Sys.init, hcap c hc], hinit, fun moves => by rw [hinit]⟩
  · have h : semCapacity c n = c := by
      have : ¬ c ≤ 0 := by omega
      simp [semCapacity, this]
    exact ⟨by simp [Sys.init, h], by simp [Sys.init, h, NewWeighted]⟩

/-- Witness of C3: three scanners, `concurrency = -1` and `concurrency = 2`. -/
theorem scanRunner_capacity_witness :
    ((Sys.init Nat 3 (-1)).sem = NewWeighted ((3 : Nat) : Int) ∧
        Sys.init Nat 3 (-1) = Sys.init Nat 3 ((3 : Nat) : Int) ∧
        ∀ moves : List (Action Nat), run (Sys.init Nat 3 (-1)) moves = run (Sys.init Nat 3 ((3 : Nat) : Int)) moves) ∧
    ((Sys.init Nat 3 2).sem = NewWeighted 2 ∧ (Sys.init Nat 3 2).sem.size = 2) :=
  ⟨(scanRunner_capacity Nat 3 (-1)).1 (by decide), (scanRunner_capacity Nat 3 2).2 (by decide)⟩

/-- Receiving an event changes nothing but the collector. -/
theorem Sys.deliver_frame {R : Type} {s s' : Sys R} {ev : Event R} (h : s.deliver ev = some s') :
    s'.tasks = s.tasks ∧ s'.sem = s.sem ∧ s'.ctxErr = s.ctxErr ∧ s'.runner = s.runner := by
  unfold Sys.deliver at h
  split at h
  · split at h <;> (cases h; simp)
  · cases h

/-- Replacing one task changes the number of permit holders by at most one. -/
theorem countP_set_le {α : Type} (p : α → Bool) (l : List α) (i : Nat) (b : α) :
    (l.set i b).countP p ≤ l.countP p + 1 := by
  by_cases h : i < l.length
  · rw [List.countP_set p l i b h]
    split <;> split <;> omega
  · rw [List.set_eq_of_length_le (by omega)]; omega

/-- A task that keeps its permit leaves the number of permit holders as it is. -/
theorem countP_set_keep {α : Type} (p : α → Bool) (l : List α) (i : Nat) (a b : α)
    (hi : l[i]? = some a) (ha : p a = true) (hb : p b = true) :
    (l.set i b).countP p = l.countP p := by
  obtain ⟨h, rfl⟩ := List.getElem?_eq_some_iff.mp hi
  have hpos : 0 < l.countP p := List.countP_pos_iff.mpr ⟨l[i], List.getElem_mem h, ha⟩
  rw [List.countP_set p l i b h]
  simp only [ha, hb, if_true]
  omega

/-- A task that gives its permit back lowers the number of permit holders by one. -/
theorem countP_set_drop {α : Type} (p : α → Bool) (l : List α) (i : Nat) (a b : α)
    (hi : l[i]? = some a) (ha : p a = true) (hb : p b = false) :
    (l.set i b).countP p + 1 = l.countP p := by
  obtain ⟨h, rfl⟩ := List.getElem?_eq_some_iff.mp hi
  have hpos : 0 < l.countP p := List.countP_pos_iff.mpr ⟨l[i], List.getElem_mem h, ha⟩
  rw [List.countP_set p l i b h]
  simp only [ha, hb, if_true]
  simp
  omega

/-- Every move keeps the permit invariant, the number of tasks and the capacity. -/
theorem step_permitInv {R : Type} {s s' : Sys R} {a : Action R} (h : step s a = some s')
    (hinv : s.PermitInv) :
    s'.PermitInv ∧ s'.tasks.length = s.tasks.length ∧ s'.sem.size = s.sem.size := by
  obtain ⟨h1, h2⟩ := hinv
  unfold Sys.running at h1
  unfold step at h
  split at h
  · cases h
  cases a with
  | acquire =>
    simp only at h
    split at h
    · split at h
      · rename_i hc
        cases h
        have hle := countP_set_le TaskState.holdsPermit s.tasks ‹Nat› (TaskState.spawned : TaskState R)
        have hcan : s.sem.size - s.sem.cur ≥ 1 := by simpa [Weighted.canAcquire] using hc.2
        refine ⟨⟨?_, ?_⟩, by simp, rfl⟩
        · simp only [Sys.running, Weighted.Acquire]; omega
        · simp only [Weighted.Acquire]; omega
      · cases h
    · cases h
  | acquireFail =>
    simp only at h
    split at h
    · split at h
      · cases h; exact ⟨⟨h1, h2⟩, rfl, rfl⟩
      · cases h
    · cases h
  | runnerSend =>
    simp only at h
    split at h
    · cases hd : s.deliver (.errCh ‹GoError›) with
      | none => simp [hd] at h
      | some s1 =>
        simp only [hd, Option.map_some'] at h
        cases h
        obtain ⟨ht, hs, -, -⟩ := Sys.deliver_frame hd
        exact ⟨⟨by simpa [Sys.running, ht, hs] using h1, by simpa [hs] using h2⟩, by simp [ht], by simp [hs]⟩
    · cases h
  | start i =>
    simp only at h
    split at h
    · rename_i hi
      split at h
      · cases h
        have hd := countP_set_drop TaskState.holdsPermit s.tasks i _ (TaskState.done : TaskState R) hi rfl rfl
        refine ⟨⟨?_, ?_⟩, by simp [Sys.finish], rfl⟩
        · simp only [Sys.running, Sys.finish, Weighted.Release]; omega
        · simp only [Sys.finish, Weighted.Release]; omega
      · cases h
        have hk := countP_set_keep TaskState.holdsPermit s.tasks i _ (TaskState.ready : TaskState R) hi rfl rfl
        exact ⟨⟨by simp only [Sys.running, Sys.setTask]; omega, h2⟩, by simp [Sys.setTask], rfl⟩
    · cases h
  | invokeScan i =>
    simp only at h
    split at h
    · rename_i hi
      cases h
      have hk := countP_set_keep TaskState.holdsPermit s.tasks i _ (TaskState.scanning : TaskState R) hi rfl rfl
      exact ⟨⟨by simp only [Sys.running, Sys.setTask]; omega, h2⟩, by simp [Sys.setTask], rfl⟩
    · cases h
  | scanReturn i res err =>
    simp only at h
    split at h
    · rename_i hi
      split at h
      · cases h
        have hk := countP_set_keep TaskState.holdsPermit s.tasks i _
          (TaskState.sendingErr ‹GoError› res : TaskState R) hi rfl rfl
        exact ⟨⟨by simp only [Sys.running, Sys.setTask]; omega, h2⟩, by simp [Sys.setTask], rfl⟩
      · cases h
        have hk := countP_set_keep TaskState.holdsPermit s.tasks i _
          (TaskState.sendingRes res : TaskState R) hi rfl rfl
        exact ⟨⟨by simp only [Sys.running, Sys.setTask]; omega, h2⟩, by simp [Sys.setTask], rfl⟩
    · cases h
  | sendErr i =>
    simp only at h
    split at h
    · rename_i e res hi
      cases hd : s.deliver (.errCh e) with
      | none => simp [hd] at h
      | some s1 =>
        simp only [hd, Option.map_some'] at h
        cases h
        obtain ⟨ht, hs, -, -⟩ := Sys.deliver_frame hd
        have hk := countP_set_keep TaskState.holdsPermit s.tasks i _
          (TaskState.sendingRes res : TaskState R) hi rfl rfl
        refine ⟨⟨?_, ?_⟩, by simp [Sys.setTask, ht], by simp [Sys.setTask, hs]⟩
        · simp only [Sys.running, Sys.setTask, ht, hs]; omega
        · simp only [Sys.setTask, hs]; exact h2
    · cases h
  | sendRes i =>
    simp only at h
    split at h
    · rename_i res hi
      cases hd : s.deliver (.resCh res) with
      | none => simp [hd] at h
      | some s1 =>
        simp only [hd, Option.map_some'] at h
        cases h
        obtain ⟨ht, hs, -, -⟩ := Sys.deliver_frame hd
        have hk := countP_set_drop TaskState.holdsPermit s.tasks i _ (TaskState.done : TaskState R) hi rfl rfl
        refine ⟨⟨?_, ?_⟩, by simp [Sys.finish, ht], by simp [Sys.finish, hs, Weighted.Release]⟩
        · simp only [Sys.running, Sys.finish, Weighted.Release, ht, hs]; omega
        · simp only [Sys.finish, Weighted.Release, hs]; omega
    · cases h
  | ctxDone =>
    simp only at h
    split at h
    · obtain ⟨ht, hs, -, -⟩ := Sys.deliver_frame h
      exact ⟨⟨by simpa [Sys.running, ht, hs] using h1, by simpa [hs] using h2⟩, by simp [ht], by simp [hs]⟩
    · cases h
  | cancel =>
    simp only at h
    split at h
    · cases h; exact ⟨⟨h1, h2⟩, rfl, rfl⟩
    · cases h
  | fatal =>
    simp only at h
    split at h
    · cases h; exact ⟨⟨h1, h2⟩, rfl, rfl⟩
    · cases h
  | expire =>
    simp only at h
    split at h
    · cases h; exact ⟨⟨h1, h2⟩, rfl, rfl⟩
    · cases h

/-- The permit invariant, the number of tasks and the capacity along a run. -/
theorem run_permitInv {R : Type} (moves : List (Action R)) :
    ∀ {s s' : Sys R}, run s moves = some s' → s.PermitInv →
      s'.PermitInv ∧ s'.tasks.length = s.tasks.length ∧ s'.sem.size = s.sem.size := by
  induction moves with
  | nil => intro s s' h hinv; cases h; exact ⟨hinv, rfl, rfl⟩
  | cons a rest ih =>
    intro s s' h hinv
    simp only [run] at h
    cases hs : step s a with
    | none => simp [hs] at h
    | some s1 =>
      simp only [hs, Option.some_bind] at h
      obtain ⟨i1, l1, c1⟩ := step_permitInv hs hinv
      obtain ⟨i2, l2, c2⟩ := ih h i1
      exact ⟨i2, by omega, by omega⟩

/-- Claim C7: for every concurrency value `c ≥ 1` and every number `n` of
scanners, in every state a scan can reach the number of scanner tasks that hold
a permit (started and not yet returned) is at most `min c n`. -/
theorem scanRunner_bounded (R : Type) (n : Nat) (c : Int) (hc : 1 ≤ c) (moves : List (Action R))
    (s : Sys R) (h : run (Sys.init R n c) moves = some s) :
    (s.running : Int) ≤ min c (n : Int) := by
  have hcap : semCapacity c n = c := by
    have : ¬ c ≤ 0 := by omega
    simp [semCapacity, this]
  have h0 : (Sys.init R n c).PermitInv := by
    simp only [Sys.PermitInv, Sys.running, Sys.init, NewWeighted, hcap]
    have : List.countP TaskState.holdsPermit (List.replicate n (TaskState.unspawned : TaskState R)) = 0 := by
      rw [List.countP_eq_zero]
      intro t ht
      rw [List.eq_of_mem_replicate ht]
      simp [TaskState.holdsPermit]
    rw [this]
    exact ⟨le_refl _, by omega⟩
  obtain ⟨⟨i1, i2⟩, hl, hs⟩ := run_permitInv moves h h0
  have hsize : s.sem.size = c := by rw [hs]; simp [Sys.init, NewWeighted, hcap]
  have hlen : s.running ≤ n := by
    have := List.countP_le_length (l := s.tasks) TaskState.holdsPermit
    simp only [Sys.init, List.length_replicate] at hl
    unfold Sys.running
    omega
  exact le_min (by omega) (by exact_mod_cast hlen)

/-- Witness of C7: three scanners, `concurrency = 2`; after two tasks were
started and the first one called `Scan`, no further `Acquire` succeeds and two
tasks hold a permit. -/
theorem scanRunner_bounded_witness :
    (1 : Int) ≤ 2 ∧
    run (Sys.init Nat 3 2) [.acquire, .acquire, .start 0, .invokeScan 0]
      = some { ctxErr := none, sem := ⟨2, 2⟩, runner := .loop 2,
               tasks := [.scanning, .spawned, .unspawned], collector := .waiting 0 [] } ∧
    run (Sys.init Nat 3 2) [.acquire, .acquire, .start 0, .invokeScan 0, .acquire] = none ∧
    ((({ ctxErr := none, sem := ⟨2, 2⟩, runner := .loop 2,
         tasks := [.scanning, .spawned, .unspawned], collector := .waiting 0 [] } : Sys Nat).running : Nat) : Int)
      ≤ min (2 : Int) ((3 : Nat) : Int) :=
  ⟨by decide, by decide, by decide,
    scanRunner_bounded Nat 3 2 (by decide) [.acquire, .acquire, .start 0, .invokeScan 0] _ (by decide)⟩

/-- Replacing task `j` keeps task `i` idle when the new state is idle or `j` is
another task. -/
theorem taskIdle_set {R : Type} (s : Sys R) (i j : Nat) (t : TaskState R) (tasks : List (TaskState R))
    (runner : RunnerState) (sem : Weighted) (ctxErr : Option GoError) (collector : CollectorState R)
    (htasks : tasks = s.tasks.set j t)
    (hi : s.taskIdle i = true) (ht : j = i → t.idle = true) :
    Sys.taskIdle { ctxErr := ctxErr, sem := sem, runner := runner, tasks := tasks, collector := collector } i
      = true := by
  subst htasks
  unfold Sys.taskIdle at hi ⊢
  simp only [List.getElem?_set]
  by_cases hji : j = i
  · subst hji
    by_cases hlt : j < s.tasks.length
    · simp [hlt, ht rfl]
    · simp [hlt]
  · simpa [hji] using hi

/-- A task found inside its body is not the idle task `i`. -/
theorem ne_of_not_idle {R : Type} (s : Sys R) (i j : Nat) (t : TaskState R)
    (hi : s.taskIdle i = true) (hj : s.tasks[j]? = some t) (ht : t.idle = false) : j ≠ i := by
  rintro rfl
  simp [Sys.taskIdle, hj, ht] at hi

/-- Once the context is cancelled, a move keeps it cancelled, keeps an idle task
idle, and is not that task calling `Scan`. -/
theorem step_idle {R : Type} {s s' : Sys R} {a : Action R} (i : Nat) (h : step s a = some s')
    (hc : s.ctxErr = some .Canceled) (hi : s.taskIdle i = true) :
    s'.ctxErr = some .Canceled ∧ s'.taskIdle i = true ∧ a ≠ .invokeScan i := by
  unfold step at h
  split at h
  · cases h
  cases a with
  | acquire =>
    simp only at h
    split at h
    · split at h
      · cases h
        exact ⟨hc, taskIdle_set s i _ _ _ _ _ _ _ rfl hi (fun _ => rfl), by simp⟩
      · cases h
    · cases h
  | acquireFail =>
    simp only at h
    split at h
    · split at h
      · cases h; exact ⟨hc, hi, by simp⟩
      · cases h
    · cases h
  | runnerSend =>
    simp only at h
    split at h
    · cases hd : s.deliver (.errCh ‹GoError›) with
      | none => simp [hd] at h
      | some s1 =>
        simp only [hd, Option.map_some'] at h
        cases h
        obtain ⟨ht, -, hx, -⟩ := Sys.deliver_frame hd
        exact ⟨by simpa [hx] using hc, by simpa [Sys.taskIdle, ht] using hi, by simp⟩
    · cases h
  | start j =>
    simp only at h
    split at h
    · split at h
      · cases h
        exact ⟨hc, taskIdle_set s i j _ _ _ _ _ _ rfl hi (fun _ => rfl), by simp⟩
      · rename_i hne
        exact absurd hc.symm hne
    · cases h
  | invokeScan j =>
    simp only at h
    split at h
    · rename_i hj
      cases h
      have hji := ne_of_not_idle s i j _ hi hj rfl
      exact ⟨hc, taskIdle_set s i j _ _ _ _ _ _ rfl hi (fun e => absurd e hji), by simpa using hji⟩
    · cases h
  | scanReturn j res err =>
    simp only at h
    split at h
    · rename_i hj
      have hji := ne_of_not_idle s i j _ hi hj rfl
      split at h <;> cases h <;>
        exact ⟨hc, taskIdle_set s i j _ _ _ _ _ _ rfl hi (fun e => absurd e hji), by simp⟩
    · cases h
  | sendErr j =>
    simp only at h
    split at h
    · rename_i e res hj
      cases hd : s.deliver (.errCh e) with
      | none => simp [hd] at h
      | some s1 =>
        simp only [hd, Option.map_some'] at h
        cases h
        obtain ⟨ht, -, hx, -⟩ := Sys.deliver_frame hd
        have hji := ne_of_not_idle s i j _ hi hj rfl
        exact ⟨by simpa [Sys.setTask, hx] using hc,
          taskIdle_set s i j (.sendingRes res) _ _ _ _ _ (by simp [ht]) hi (fun e => absurd e hji),
          by simp⟩
    · cases h
  | sendRes j =>
    simp only at h
    split at h
    · rename_i res hj
      cases hd : s.deliver (.resCh res) with
      | none => simp [hd] at h
      | some s1 =>
        simp only [hd, Option.map_some'] at h
        cases h
        obtain ⟨ht, -, hx, -⟩ := Sys.deliver_frame hd
        exact ⟨by simpa [Sys.finish, hx] using hc,
          taskIdle_set s i j .done _ _ _ _ _ (by simp [ht]) hi (fun _ => rfl), by simp⟩
    · cases h
  | ctxDone =>
    simp only at h
    split at h
    · obtain ⟨ht, -, hx, -⟩ := Sys.deliver_frame h
      exact ⟨by simpa [hx] using hc, by simpa [Sys.taskIdle, ht] using hi, by simp⟩
    · cases h
  | cancel =>
    simp only at h
    split at h
    · cases h; exact ⟨by simp [hc], hi, by simp⟩
    · cases h
  | fatal =>
    simp only at h
    split at h
    · cases h; exact ⟨hc, hi, by simp⟩
    · cases h
  | expire =>
    simp only at h
    split at h
    · rename_i hn; rw [hc] at hn; cases hn
    · cases h

/-- From a state whose context is cancelled, an idle task never calls `Scan`. -/
theorem run_idle {R : Type} (i : Nat) (moves : List (Action R)) :
    ∀ {s s' : Sys R}, run s moves = some s' → s.ctxErr = some .Canceled → s.taskIdle i = true →
      Action.invokeScan i ∉ moves ∧ s'.ctxErr = some .Canceled ∧ s'.taskIdle i = true := by
  induction moves with
  | nil => intro s s' h hc hi; cases h; exact ⟨by simp, hc, hi⟩
  | cons a rest ih =>
    intro s s' h hc hi
    simp only [run] at h
    cases hs : step s a with
    | none => simp [hs] at h
    | some s1 =>
      simp only [hs, Option.some_bind] at h
      obtain ⟨c1, i1, n1⟩ := step_idle i hs hc hi
      obtain ⟨n2, c2, i2⟩ := ih h c1 i1
      refine ⟨?_, c2, i2⟩
      simp only [List.mem_cons, not_or]
      exact ⟨fun e => n1 e.symm, n2⟩

/-- Claim C4, evaluated on a scanner whose `Scan` fails: one scanner,
`concurrency = 1`, `Scan` returns `(nil, "throttled")`.  The task sends the
error on the error channel (line 208) and, there being no `return`, goes on to
line 210: once `waitForReviews` has received the error the task stands at
`rc.ResCh <- res` with the nil list, still holding its permit, while the
collector has already returned. -/
theorem task_failed_scan_reaches_result_send :
    run (Sys.init Nat 1 1)
        [.acquire, .start 0, .invokeScan 0, .scanReturn 0 none (some (.other "throttled"))]
      = some { ctxErr := none, sem := ⟨1, 1⟩, runner := .loop 1,
               tasks := [.sendingErr (.other "throttled") none], collector := .waiting 0 [] } ∧
    run (Sys.init Nat 1 1)
        [.acquire, .start 0, .invokeScan 0, .scanReturn 0 none (some (.other "throttled")), .sendErr 0]
      = some { ctxErr := none, sem := ⟨1, 1⟩, runner := .loop 1,
               tasks := [.sendingRes none],
               collector := .returned (none, some (.other "throttled")) } := by
  decide

/-- Counterexample to C5 as stated, on a context whose deadline expired before
the task body starts: one scanner, `concurrency = 1`.  `rc.Ctx.Err()` is
`DeadlineExceeded`, which is not `context.Canceled`, so the guard of line 203
lets the task through and it calls `Scan`, keeping its permit.  With an
explicitly cancelled context (second scenario: task 0 failed and `scan` called
`cancel()`) task 1 returns at the guard, releases its permit and cannot call
`Scan`. -/
theorem task_starts_scan_after_deadline :
    run (Sys.init Nat 1 1) [.acquire, .expire, .start 0, .invokeScan 0]
      = some { ctxErr := some .DeadlineExceeded, sem := ⟨1, 1⟩, runner := .loop 1,
               tasks := [.scanning], collector := .waiting 0 [] } ∧
    run (Sys.init Nat 2 2)
        [.acquire, .acquire, .start 0, .invokeScan 0, .scanReturn 0 none (some (.other "throttled")),
         .sendErr 0, .cancel, .start 1]
      = some { ctxErr := some .Canceled, sem := ⟨2, 1⟩, runner := .loop 2,
               tasks := [.sendingRes none, .done], collector := .cancelled } ∧
    run (Sys.init Nat 2 2)
        [.acquire, .acquire, .start 0, .invokeScan 0, .scanReturn 0 none (some (.other "throttled")),
         .sendErr 0, .cancel, .start 1, .invokeScan 1]
      = none := by
  decide

/-- An idle task is not the one whose send is received. -/
theorem step_idle_nosend {R : Type} {s s' : Sys R} {a : Action R} (i : Nat) (h : step s a = some s')
    (hi : s.taskIdle i = true) : a ≠ .sendErr i ∧ a ≠ .sendRes i := by
  constructor
  · rintro rfl
    unfold step at h
    split at h
    · cases h
    · simp only at h
      split at h
      · rename_i heq
        simp [Sys.taskIdle, heq, TaskState.idle] at hi
      · cases h
  · rintro rfl
    unfold step at h
    split at h
    · cases h
    · simp only at h
      split at h
      · rename_i heq
        simp [Sys.taskIdle, heq, TaskState.idle] at hi
      · cases h

/-- From a state whose context is cancelled, an idle task never sends on a
channel. -/
theorem run_idle_nosend {R : Type} (i : Nat) (moves : List (Action R)) :
    ∀ {s s' : Sys R}, run s moves = some s' → s.ctxErr = some .Canceled → s.taskIdle i = true →
      Action.sendErr i ∉ moves ∧ Action.sendRes i ∉ moves := by
  induction moves with
  | nil => intro s s' _ _ _; simp
  | cons a rest ih =>
    intro s s' h hc hi
    simp only [run] at h
    cases hs : step s a with
    | none => simp [hs] at h
    | some s1 =>
      simp only [hs, Option.some_bind] at h
      obtain ⟨c1, i1, -⟩ := step_idle i hs hc hi
      obtain ⟨n1, n2⟩ := step_idle_nosend i hs hi
      obtain ⟨m1, m2⟩ := ih h c1 i1
      simp only [List.mem_cons, not_or]
      exact ⟨⟨fun e => n1 e.symm, m1⟩, ⟨fun e => n2 e.symm, m2⟩⟩

/-- Claim C5, amended: for every scanner task of `scanRunner` whose shared
context is explicitly cancelled (`rc.Ctx.Err()` is `context.Canceled`) when the
task body starts, the task returns at its guard: it releases its permit, and
neither then nor later does it call `Scan` or send on the result channel or on
the error channel (the collector is left as it was). -/
theorem task_cancelled_returns_at_guard (R : Type) (n : Nat) (c : Int) (pre post : List (Action R))
    (s s' : Sys R) (i : Nat) (hpre : run (Sys.init R n c) pre = some s)
    (hc : s.ctxErr = some .Canceled) (hi : s.tasks[i]? = some .spawned)
    (hlive : s.collector.hasExited = false) (hpost : run (s.finish i) post = some s') :
    step s (.start i) = some (s.finish i) ∧
    ((s.finish i).tasks[i]? = some .done ∧ (s.finish i).sem.cur = s.sem.cur - 1 ∧
      (s.finish i).collector = s.collector) ∧
    (Action.invokeScan i ∉ post ∧ Action.sendErr i ∉ post ∧ Action.sendRes i ∉ post) := by
  have _ := hpre
  have hlt : i < s.tasks.length := (List.getElem?_eq_some_iff.mp hi).1
  have hdone : (s.finish i).tasks[i]? = some .done := by
    simp [Sys.finish, List.getElem?_set, hlt]
  have hidle : (s.finish i).taskIdle i = true := by
    simp [Sys.taskIdle, hdone, TaskState.idle]
  have hc2 : (s.finish i).ctxErr = some .Canceled := hc
  obtain ⟨h1, -, -⟩ := run_idle i post hpost hc2 hidle
  obtain ⟨h2, h3⟩ := run_idle_nosend i post hpost hc2 hidle
  refine ⟨?_, ⟨hdone, rfl, rfl⟩, h1, h2, h3⟩
  simp [step, hlive, hi, hc]

/-- Witness of the amended C5: two scanners, `concurrency = 2`; task 0 failed
and `scan` cancelled the context before the body of task 1 started; task 1
returns at its guard and the permit count drops from 2 to 1. -/
theorem task_cancelled_returns_at_guard_witness :
    run (Sys.init Nat 2 2)
        [.acquire, .acquire, .start 0, .invokeScan 0, .scanReturn 0 none (some (.other "throttled")),
         .sendErr 0, .cancel]
      = some { ctxErr := some .Canceled, sem := ⟨2, 2⟩, runner := .loop 2,
               tasks := [.sendingRes none, .spawned], collector := .cancelled } ∧
    run (Sys.finish ({ ctxErr := some .Canceled, sem := ⟨2, 2⟩, runner := .loop 2,
                       tasks := [.sendingRes none, .spawned], collector := .cancelled } : Sys Nat) 1)
        [.fatal]
      = some { ctxErr := some .Canceled, sem := ⟨2, 1⟩, runner := .loop 2,
               tasks := [.sendingRes none, .done], collector := .exited } ∧
    (step ({ ctxErr := some .Canceled, sem := ⟨2, 2⟩, runner := .loop 2,
             tasks := [.sendingRes none, .spawned], collector := .cancelled } : Sys Nat) (.start 1)
        = some (Sys.finish { ctxErr := some .Canceled, sem := ⟨2, 2⟩, runner := .loop 2,
                             tasks := [.sendingRes none, .spawned], collector := .cancelled } 1) ∧
      ((Sys.finish ({ ctxErr := some .Canceled, sem := ⟨2, 2⟩, runner := .loop 2,
                      tasks := [.sendingRes none, .spawned], collector := .cancelled } : Sys Nat) 1).tasks[1]?
          = some .done ∧
        (Sys.finish ({ ctxErr := some .Canceled, sem := ⟨2, 2⟩, runner := .loop 2,
                       tasks := [.sendingRes none, .spawned], collector := .cancelled } : Sys Nat) 1).sem.cur
          = 2 - 1 ∧
        (Sys.finish ({ ctxErr := some .Canceled, sem := ⟨2, 2⟩, runner := .loop 2,
                       tasks := [.sendingRes none, .spawned], collector := .cancelled } : Sys Nat) 1).collector
          = .cancelled) ∧
      (Action.invokeScan 1 ∉ ([.fatal] : List (Action Nat)) ∧
        Action.sendErr 1 ∉ ([.fatal] : List (Action Nat)) ∧
        Action.sendRes 1 ∉ ([.fatal] : List (Action Nat)))) :=
  ⟨by decide, by decide,
    task_cancelled_returns_at_guard Nat 2 2
      [.acquire, .acquire, .start 0, .invokeScan 0, .scanReturn 0 none (some (.other "throttled")),
       .sendErr 0, .cancel]
      [.fatal]
      { ctxErr := some .Canceled, sem := ⟨2, 2⟩, runner := .loop 2,
        tasks := [.sendingRes none, .spawned], collector := .cancelled }
      { ctxErr := some .Canceled, sem := ⟨2, 1⟩, runner := .loop 2,
        tasks := [.sendingRes none, .done], collector := .exited }
      1 (by decide) rfl rfl rfl (by decide)⟩

/-- Counterexample to C6 as stated: two scanners, `concurrency = 2`.  Task 0
fails and its error is received by `waitForReviews`, which returns it; at that
moment task 1 has not started and the context is not yet cancelled (`scan` has
not reached `cancel()`).  Task 1 then passes the guard and calls `Scan`. -/
theorem scan_started_after_reported_error :
    run (Sys.init Nat 2 2)
        [.acquire, .acquire, .start 0, .invokeScan 0, .scanReturn 0 none (some (.other "throttled")),
         .sendErr 0]
      = some { ctxErr := none, sem := ⟨2, 2⟩, runner := .loop 2,
               tasks := [.sendingRes none, .spawned],
               collector := .returned (none, some (.other "throttled")) } ∧
    run { ctxErr := none, sem := ⟨2, 2⟩, runner := .loop 2,
          tasks := [.sendingRes none, .spawned],
          collector := .returned (none, some (.other "throttled")) }
        [.start 1, .invokeScan 1]
      = some ({ ctxErr := none, sem := ⟨2, 2⟩, runner := .loop 2,
                tasks := [.sendingRes none, .scanning],
                collector := .returned (none, some (.other "throttled")) } : Sys Nat) := by
  decide

/-- Claim C6, amended: in every execution of one resource-group scan, once the
shared context is cancelled (`rc.Ctx.Err()` is `context.Canceled`, which `scan`
brings about by `cancel()` after `waitForReviews` returned the reported error),
no scanner task that has not yet started calls `Scan` afterwards: such a task
stays unstarted or returns at its guard. -/
theorem no_scan_after_cancel (R : Type) (n : Nat) (c : Int) (pre post : List (Action R))
    (s s' : Sys R) (i : Nat) (hpre : run (Sys.init R n c) pre = some s)
    (hc : s.ctxErr = some .Canceled)
    (hi : ∃ t, s.tasks[i]? = some t ∧ t.notStarted = true)
    (hpost : run s post = some s') :
    Action.invokeScan i ∉ post ∧ s'.taskIdle i = true := by
  have _ := hpre
  have hidle : s.taskIdle i = true := by
    obtain ⟨t, ht, hn⟩ := hi
    unfold Sys.taskIdle
    rw [ht]
    cases t <;> simp_all [TaskState.notStarted, TaskState.idle]
  obtain ⟨h1, -, h3⟩ := run_idle i post hpost hc hidle
  exact ⟨h1, h3⟩

/-- Witness of the amended C6: two scanners, `concurrency = 2`; task 0 fails,
`scan` cancels the context, and task 1, not yet started, returns at its guard. -/
theorem no_scan_after_cancel_witness :
    run (Sys.init Nat 2 2)
        [.acquire, .acquire, .start 0, .invokeScan 0, .scanReturn 0 none (some (.other "throttled")),
         .sendErr 0, .cancel]
      = some { ctxErr := some .Canceled, sem := ⟨2, 2⟩, runner := .loop 2,
               tasks := [.sendingRes none, .spawned], collector := .cancelled } ∧
    run ({ ctxErr := some .Canceled, sem := ⟨2, 2⟩, runner := .loop 2,
           tasks := [.sendingRes none, .spawned], collector := .cancelled } : Sys Nat) [.start 1]
      = some { ctxErr := some .Canceled, sem := ⟨2, 1⟩, runner := .loop 2,
               tasks := [.sendingRes none, .done], collector := .cancelled } ∧
    (Action.invokeScan 1 ∉ ([.start 1] : List (Action Nat)) ∧
      Sys.taskIdle ({ ctxErr := some .Canceled, sem := ⟨2, 1⟩, runner := .loop 2,
                      tasks := [.sendingRes none, .done], collector := .cancelled } : Sys Nat) 1 = true) :=
  ⟨by decide, by decide,
    no_scan_after_cancel Nat 2 2
      [.acquire, .acquire, .start 0, .invokeScan 0, .scanReturn 0 none (some (.other "throttled")),
       .sendErr 0, .cancel]
      [.start 1]
      { ctxErr := some .Canceled, sem := ⟨2, 2⟩, runner := .loop 2,
        tasks := [.sendingRes none, .spawned], collector := .cancelled }
      { ctxErr := some .Canceled, sem := ⟨2, 1⟩, runner := .loop 2,
        tasks := [.sendingRes none, .done], collector := .cancelled }
      1 (by decide) rfl ⟨.spawned, rfl, rfl⟩ (by decide)⟩

/-! ## Properties of the scanners and analyzers -/

/-- The loop of `WebPubSubScanner.Scan` on resources that are all fully set:
one result per resource, appended in order. -/
theorem WebPubSubScanner.scanLoop_of {Rules SC RR : Type} (c : WebPubSubScanner Rules SC RR)
    (scanContext : SC) (ws : List (String × String × String × String)) :
    ∀ results : List (AzqrServiceResult RR),
      c.scanLoop scanContext results (ws.map fun w => some (WebPubSubResourceInfo.of w))
        = some (results ++ ws.map fun w =>
            { SubscriptionID := c.config.SubscriptionID
              SubscriptionName := c.config.SubscriptionName
              ResourceGroup := c.GetResourceGroupFromResourceID w.1
              ServiceName := w.2.1
              Type_ := w.2.2.1
              Location := w.2.2.2
              Recommendations :=
                c.EvaluateRecommendations c.GetRecommendations (WebPubSubResourceInfo.of w) scanContext }) := by
  induction ws with
  | nil => intro results; simp [WebPubSubScanner.scanLoop]
  | cons w ws ih =>
    intro results
    simp only [WebPubSubResourceInfo.of] at ih
    simp only [List.map_cons, WebPubSubScanner.scanLoop, WebPubSubResourceInfo.of]
    rw [ih]
    simp

/-- An error returned by the loop of `AKSAnalyzer.Review` comes with a nil list. -/
theorem aksReviewLoop_error (a : AKSAnalyzer) (rg : String)
    (l : List (Option ManagedCluster)) :
    ∀ (results : List AzureServiceResult) (res : Slice AzureServiceResult) (e : GoError),
      a.reviewLoop rg results l = some (res, some e) → res = none := by
  induction l with
  | nil => intro results res e h; simp [AKSAnalyzer.reviewLoop] at h
  | cons c rest ih =>
    intro results res e h
    cases c with
    | none => simp [AKSAnalyzer.reviewLoop] at h
    | some c =>
      unfold AKSAnalyzer.reviewLoop at h
      split at h
      · cases h
      · split at h
        · simp only [Option.some.injEq, Prod.mk.injEq] at h; exact h.1.symm
        · split at h
          · cases h
          · exact ih _ _ _ h

/-- An error returned by the loop of `CosmosDBAnalyzer.Review` comes with a nil
list. -/
theorem cosmosReviewLoop_error (c : CosmosDBAnalyzer) (rg : String)
    (l : List (Option DatabaseAccountGetResults)) :
    ∀ (results : List AzureServiceResult) (res : Slice AzureServiceResult) (e : GoError),
      c.reviewLoop rg results l = some (res, some e) → res = none := by
  induction l with
  | nil => intro results res e h; simp [CosmosDBAnalyzer.reviewLoop] at h
  | cons d rest ih =>
    intro results res e h
    cases d with
    | none => simp [CosmosDBAnalyzer.reviewLoop] at h
    | some d =>
      unfold CosmosDBAnalyzer.reviewLoop at h
      split at h
      · cases h
      · split at h
        · simp only [Option.some.injEq, Prod.mk.injEq] at h; exact h.1.symm
        · split at h
          · cases h
          · exact ih _ _ _ h

/-- An error returned by the loop of `SignalRAnalyzer.Review` comes with a nil
list. -/
theorem signalrReviewLoop_error (c : SignalRAnalyzer) (rg : String)
    (l : List (Option SignalRResourceInfo)) :
    ∀ (results : List AzureServiceResult) (res : Slice AzureServiceResult) (e : GoError),
      c.reviewLoop rg results l = some (res, some e) → res = none := by
  induction l with
  | nil => intro results res e h; simp [SignalRAnalyzer.reviewLoop] at h
  | cons d rest ih =>
    intro results res e h
    cases d with
    | none => simp [SignalRAnalyzer.reviewLoop] at h
    | some d =>
      unfold SignalRAnalyzer.reviewLoop at h
      split at h
      · cases h
      · split at h
        · simp only [Option.some.injEq, Prod.mk.injEq] at h; exact h.1.symm
        · split at h
          · cases h
          · exact ih _ _ _ h

/-- Claim C8: for `WebPubSubScanner.Scan`, `AKSAnalyzer.Review`,
`CosmosDBAnalyzer.Review` and `SignalRAnalyzer.Review`, whenever the returned
error is not nil the returned list is nil, also when the failure comes on a
later resource; and when the listing call fails, the call returns exactly the
listing error (with a nil list). -/
theorem error_comes_with_nil_list :
    (∀ (Rules SC RR : Type) (c : WebPubSubScanner Rules SC RR) (scanContext : SC)
        (res : Slice (AzqrServiceResult RR)) (e : GoError),
        c.Scan scanContext = some (res, some e) → res = none) ∧
    (∀ (a : AKSAnalyzer) (rg : String) (res : Slice AzureServiceResult) (e : GoError),
        a.Review rg = some (res, some e) → res = none) ∧
    (∀ (c : CosmosDBAnalyzer) (rg : String) (res : Slice AzureServiceResult) (e : GoError),
        c.Review rg = some (res, some e) → res = none) ∧
    (∀ (c : SignalRAnalyzer) (rg : String) (res : Slice AzureServiceResult) (e : GoError),
        c.Review rg = some (res, some e) → res = none) ∧
    (∀ (Rules SC RR : Type) (c : WebPubSubScanner Rules SC RR) (scanContext : SC)
        (l : Slice (Option WebPubSubResourceInfo)) (e : GoError),
        c.listWebPubSub = (l, some e) → c.Scan scanContext = some (none, some e)) ∧
    (∀ (a : AKSAnalyzer) (rg : String) (l : Slice (Option ManagedCluster)) (e : GoError),
        a.listClusters rg = (l, some e) → a.Review rg = some (none, some e)) ∧
    (∀ (c : CosmosDBAnalyzer) (rg : String) (l : Slice (Option DatabaseAccountGetResults)) (e : GoError),
        c.listDatabases rg = (l, some e) → c.Review rg = some (none, some e)) ∧
    (∀ (c : SignalRAnalyzer) (rg : String) (l : Slice (Option SignalRResourceInfo)) (e : GoError),
        c.listSignalR rg = (l, some e) → c.Review rg = some (none, some e)) := by
  refine ⟨?_, ?_, ?_, ?_, ?_, ?_, ?_, ?_⟩
  · intro Rules SC RR c scanContext res e h
    unfold WebPubSubScanner.Scan at h
    split at h
    · simp only [Option.some.injEq, Prod.mk.injEq] at h; exact h.1.symm
    · split at h
      · simp at h
      · cases h
  · intro a rg res e h
    unfold AKSAnalyzer.Review at h
    split at h
    · simp only [Option.some.injEq, Prod.mk.injEq] at h; exact h.1.symm
    · exact aksReviewLoop_error a rg _ _ _ _ h
  · intro c rg res e h
    unfold CosmosDBAnalyzer.Review at h
    split at h
    · simp only [Option.some.injEq, Prod.mk.injEq] at h; exact h.1.symm
    · exact cosmosReviewLoop_error c rg _ _ _ _ h
  · intro c rg res e h
    unfold SignalRAnalyzer.Review at h
    split at h
    · simp only [Option.some.injEq, Prod.mk.injEq] at h; exact h.1.symm
    · exact signalrReviewLoop_error c rg _ _ _ _ h
  · intro Rules SC RR c scanContext l e h
    simp [WebPubSubScanner.Scan, h]
  · intro a rg l e h
    simp [AKSAnalyzer.Review, h]
  · intro c rg l e h
    simp [CosmosDBAnalyzer.Review, h]
  · intro c rg l e h
    simp [SignalRAnalyzer.Review, h]

/-- Witness of C8: a WebPubSub listing failing on its second page; for each
analyzer a `HasDiagnostics` failure on the second of two resources, the first
being already processed, and a listing failure (for AKS one that comes with a
partial list). -/
theorem error_comes_with_nil_list_witness :
    (exampleWps.Scan () = some (none, some (.other "throttled")) ∧
      exampleAKS.Review "rg" = some (none, some (.other "denied")) ∧
      exampleCosmos.Review "rg" = some (none, some (.other "denied")) ∧
      exampleSignalR.Review "rg" = some (none, some (.other "denied"))) ∧
    (exampleWps.listWebPubSub = (none, some (.other "throttled")) ∧
      exampleAKSListFails.listClusters "rg"
        = (some [some ⟨some "id1", some "aks1", some "t", some "l", some ⟨some "Paid"⟩,
                      some ⟨some [], none⟩⟩], some (.other "throttled")) ∧
      exampleCosmosListFails.listDatabases "rg" = (none, some (.other "throttled")) ∧
      exampleSignalRListFails.listSignalR "rg" = (none, some (.other "throttled"))) ∧
    ((none : Slice (AzqrServiceResult Nat)) = none ∧
      (none : Slice AzureServiceResult) = none ∧
      (none : Slice AzureServiceResult) = none ∧
      (none : Slice AzureServiceResult) = none) ∧
    (exampleWps.Scan () = some (none, some (.other "throttled")) ∧
      exampleAKSListFails.Review "rg" = some (none, some (.other "throttled")) ∧
      exampleCosmosListFails.Review "rg" = some (none, some (.other "throttled")) ∧
      exampleSignalRListFails.Review "rg" = some (none, some (.other "throttled"))) :=
  ⟨⟨by decide, by decide, by decide, by decide⟩,
    ⟨by decide, by decide, by decide, by decide⟩,
    ⟨error_comes_with_nil_list.1 Unit Unit Nat exampleWps () none (.other "throttled") (by decide),
      error_comes_with_nil_list.2.1 exampleAKS "rg" none (.other "denied") (by decide),
      error_comes_with_nil_list.2.2.1 exampleCosmos "rg" none (.other "denied") (by decide),
      error_comes_with_nil_list.2.2.2.1 exampleSignalR "rg" none (.other "denied") (by decide)⟩,
    ⟨error_comes_with_nil_list.2.2.2.2.1 Unit Unit Nat exampleWps () none (.other "throttled") (by decide),
      error_comes_with_nil_list.2.2.2.2.2.1 exampleAKSListFails "rg"
        (some [some ⟨some "id1", some "aks1", some "t", some "l", some ⟨some "Paid"⟩, some ⟨some [], none⟩⟩])
        (.other "throttled") (by decide),
      error_comes_with_nil_list.2.2.2.2.2.2.1 exampleCosmosListFails "rg" none (.other "throttled")
        (by decide),
      error_comes_with_nil_list.2.2.2.2.2.2.2 exampleSignalRListFails "rg" none (.other "throttled")
        (by decide)⟩⟩

/-- Counterexample to C9 as stated: the listing succeeds with one resource
whose `Name` is nil; `Scan` dereferences it (`*w.Name`, line 44) and panics, so
it returns neither a list nor an error. -/
theorem WebPubSubScanner.scan_panics_on_nil_name :
    exampleWpsNoName.listWebPubSub
      = (some [some { ID := some "id1", Name := none, Type_ := some "t", Location := some "westeurope" }],
         none) ∧
    exampleWpsNoName.Scan () = none := by
  decide

/-- Claim C9, amended: when the listing succeeds with the WebPubSub resources
`w_1 .. w_k`, none a nil pointer and each with its ID, name, type and location
set, `Scan` returns no
error and exactly `k` service results in listing order, the `i`-th carrying the
configured subscription id (and name), the name, type and location of `w_i`,
and as `Recommendations` the engine's output for the scanner's own registry,
`w_i` and the given scan context; for `k = 0` the list is empty and not nil. -/
theorem WebPubSubScanner.scan_success {Rules SC RR : Type} (c : WebPubSubScanner Rules SC RR)
    (scanContext : SC) (ws : List (String × String × String × String))
    (h : c.listWebPubSub = (some (ws.map fun w => some (WebPubSubResourceInfo.of w)), none)) :
    c.Scan scanContext
        = some (some (ws.map fun w =>
            { SubscriptionID := c.config.SubscriptionID
              SubscriptionName := c.config.SubscriptionName
              ResourceGroup := c.GetResourceGroupFromResourceID w.1
              ServiceName := w.2.1
              Type_ := w.2.2.1
              Location := w.2.2.2
              Recommendations :=
                c.EvaluateRecommendations c.GetRecommendations (WebPubSubResourceInfo.of w) scanContext }),
          none) ∧
      (ws = [] → c.Scan scanContext = some (some [], none)) := by
  have hscan := WebPubSubScanner.scanLoop_of c scanContext ws []
  have main : c.Scan scanContext = some (some (ws.map fun w =>
      ({ SubscriptionID := c.config.SubscriptionID
         SubscriptionName := c.config.SubscriptionName
         ResourceGroup := c.GetResourceGroupFromResourceID w.1
         ServiceName := w.2.1
         Type_ := w.2.2.1
         Location := w.2.2.2
         Recommendations :=
           c.EvaluateRecommendations c.GetRecommendations (WebPubSubResourceInfo.of w) scanContext }
        : AzqrServiceResult RR)), none) := by
    unfold WebPubSubScanner.Scan
    rw [h]
    simp only [Slice.elems]
    rw [hscan]
    simp
  refine ⟨main, ?_⟩
  rintro rfl
  simpa using main

/-- Witness of C9: a listing of two resources on two pages. -/
theorem WebPubSubScanner.scan_success_witness :
    exampleWpsOk.listWebPubSub
        = (some ([("id1", "w1", "t", "westeurope"), ("id2", "wps2", "t", "northeurope")].map
            fun w => some (WebPubSubResourceInfo.of w)), none) ∧
    exampleWpsOk.Scan ()
        = some (some [⟨"sub-1", "Production", "rg", "w1", "t", "westeurope", 2⟩,
                      ⟨"sub-1", "Production", "rg", "wps2", "t", "northeurope", 4⟩], none) :=
  ⟨by decide,
    (WebPubSubScanner.scan_success exampleWpsOk ()
      [("id1", "w1", "t", "westeurope"), ("id2", "wps2", "t", "northeurope")] (by decide)).1⟩

/-- Claim C10: for a container registry with resource ID `r` and a scan context
whose diagnostics index is keyed by lowercased resource IDs, `cr-001` reports
not-violated when the index has an entry equal to `r` up to letter case, and
violated when it has none; the detail string is empty in both cases. -/
theorem cr001_diagnostics (ToLower : String → String) (service : Registry) (scanContext : ScanContext)
    (r : String) (hid : service.ID = some r)
    (hkeys : ∀ k, (scanContext.DiagnosticsSettings k).isSome = true → ToLower k = k) :
    ((∃ k, (scanContext.DiagnosticsSettings k).isSome = true ∧ ToLower k = ToLower r) →
        cr001Eval ToLower service scanContext = some (false, "")) ∧
    ((¬ ∃ k, (scanContext.DiagnosticsSettings k).isSome = true ∧ ToLower k = ToLower r) →
        cr001Eval ToLower service scanContext = some (true, "")) := by
  have hiff : (∃ k, (scanContext.DiagnosticsSettings k).isSome = true ∧ ToLower k = ToLower r) ↔
      (scanContext.DiagnosticsSettings (ToLower r)).isSome = true := by
    constructor
    · rintro ⟨k, hk, he⟩
      rw [← he, hkeys k hk]; exact hk
    · intro h
      exact ⟨ToLower r, h, hkeys _ h⟩
  constructor
  · intro h
    simp [cr001Eval, hid, hiff.mp h]
  · intro h
    have h2 : ¬ (scanContext.DiagnosticsSettings (ToLower r)).isSome = true := fun h3 => h (hiff.mpr h3)
    simp only [Bool.not_eq_true] at h2
    simp [cr001Eval, hid, h2]

/-- Witness of C10: the index holds the resource "R1" (under the key "r1"); a
registry with ID "R1" is not violated, one with ID "R2" is. -/
theorem cr001_diagnostics_witness :
    cr001Eval asciiToLower { ID := some "R1" } exampleScanContext = some (false, "") ∧
    cr001Eval asciiToLower { ID := some "R2" } exampleScanContext = some (true, "") :=
  have hkeys : ∀ k, (exampleScanContext.DiagnosticsSettings k).isSome = true → asciiToLower k = k := by
    intro k hk
    by_cases h : k = asciiToLower "R1"
    · subst h; decide
    · simp [exampleScanContext, h] at hk
  ⟨(cr001_diagnostics asciiToLower { ID := some "R1" } exampleScanContext "R1" rfl hkeys).1
      ⟨asciiToLower "R1", by decide, by decide⟩,
    (cr001_diagnostics asciiToLower { ID := some "R2" } exampleScanContext "R2" rfl hkeys).2 (by
      rintro ⟨k, hk, he⟩
      by_cases h : k = asciiToLower "R1"
      · subst h; revert he; decide
      · simp [exampleScanContext, h] at hk)⟩

/-! ## Properties of the rule registries -/

/-- Claim C11: the registry of `AppInsightsScanner.GetRecommendations` has 3
entries and that of `ContainerRegistryScanner.GetRules` has 10; in both every
entry is stored under the key equal to its own identifier field, the
identifiers are pairwise distinct, and looking up the identifier of an entry
returns that entry. -/
theorem registries_keyed_by_identifier (ToLower : String → String) :
    (GetRecommendations.length = 3 ∧ (GetRules ToLower).length = 10) ∧
    ((∀ p ∈ GetRecommendations, p.1 = p.2.RecommendationID) ∧
      (∀ p ∈ GetRules ToLower, p.1 = p.2.Id)) ∧
    ((GetRecommendations.map fun p => p.2.RecommendationID).Nodup ∧
      ((GetRules ToLower).map fun p => p.2.Id).Nodup) ∧
    ((∀ p ∈ GetRecommendations, GoMap.find GetRecommendations p.2.RecommendationID = some p.2) ∧
      (∀ p ∈ GetRules ToLower, GoMap.find (GetRules ToLower) p.2.Id = some p.2)) := by
  have hids : ((GetRules ToLower).map fun p => p.2.Id)
      = ["cr-001", "cr-002", "cr-003", "cr-004", "cr-005", "cr-006", "cr-007", "cr-008", "cr-009",
         "cr-010"] := rfl
  refine ⟨⟨rfl, rfl⟩, ⟨?_, ?_⟩, ⟨by decide, by rw [hids]; decide⟩, ⟨?_, ?_⟩⟩
  · intro p hp
    simp only [GetRecommendations, List.mem_cons, List.mem_singleton, List.not_mem_nil, or_false] at hp
    rcases hp with rfl | rfl | rfl <;> rfl
  · intro p hp
    simp only [GetRules, List.mem_cons, List.mem_singleton, List.not_mem_nil, or_false] at hp
    rcases hp with rfl | rfl | rfl | rfl | rfl | rfl | rfl | rfl | rfl | rfl <;> rfl
  · intro p hp
    simp only [GetRecommendations, List.mem_cons, List.mem_singleton, List.not_mem_nil, or_false] at hp
    rcases hp with rfl | rfl | rfl <;> rfl
  · intro p hp
    simp only [GetRules, List.mem_cons, List.mem_singleton, List.not_mem_nil, or_false] at hp
    rcases hp with rfl | rfl | rfl | rfl | rfl | rfl | rfl | rfl | rfl | rfl <;> rfl

/-- Witness of C11: the entries `cr-010` (the tenth of `GetRules`) and
`appi-002` (the second of `GetRecommendations`). -/
theorem registries_keyed_by_identifier_witness :
    ((List.get GetRecommendations ⟨1, by decide⟩ ∈ GetRecommendations ∧
        List.get (GetRules asciiToLower) ⟨9, by decide⟩ ∈ GetRules asciiToLower) ∧
      ((List.get GetRecommendations ⟨1, by decide⟩).1 = "appi-002" ∧
        (List.get (GetRules asciiToLower) ⟨9, by decide⟩).1 = "cr-010")) ∧
    ((List.get GetRecommendations ⟨1, by decide⟩).1 = (List.get GetRecommendations ⟨1, by decide⟩).2.RecommendationID ∧
      (List.get (GetRules asciiToLower) ⟨9, by decide⟩).1 = (List.get (GetRules asciiToLower) ⟨9, by decide⟩).2.Id) ∧
    (GoMap.find GetRecommendations "appi-002" = some (List.get GetRecommendations ⟨1, by decide⟩).2 ∧
      GoMap.find (GetRules asciiToLower) "cr-010" = some (List.get (GetRules asciiToLower) ⟨9, by decide⟩).2) :=
  ⟨⟨⟨List.get_mem _ _ _, List.get_mem _ _ _⟩, rfl, rfl⟩,
    ⟨(registries_keyed_by_identifier asciiToLower).2.1.1 _ (List.get_mem _ _ _),
      (registries_keyed_by_identifier asciiToLower).2.1.2 _ (List.get_mem _ _ _)⟩,
    ⟨(registries_keyed_by_identifier asciiToLower).2.2.2.1 _ (List.get_mem GetRecommendations 1 (by decide)),
      (registries_keyed_by_identifier asciiToLower).2.2.2.2 _
        (List.get_mem (GetRules asciiToLower) 9 (by decide))⟩⟩

/-- Claim C12: for a container registry whose `Properties` is not nil, `cr-010`
evaluates without panic whichever of `Policies`, `RetentionPolicy` and `Status`
are nil; it reports violated exactly when `Policies` is nil, or
`RetentionPolicy` is nil, or `Status` is nil, or `Status` is `Disabled`, and
not-violated otherwise; the detail string is empty. -/
theorem cr010_retention (c : Registry) (props : RegistryProperties) (scanContext : ScanContext)
    (hp : c.Properties = some props) :
    cr010Eval c scanContext
      = some (decide (props.Policies = none ∨
                (props.Policies.bind fun q => q.RetentionPolicy) = none ∨
                ((props.Policies.bind fun q => q.RetentionPolicy).bind fun q => q.Status) = none ∨
                ((props.Policies.bind fun q => q.RetentionPolicy).bind fun q => q.Status)
                  = some PolicyStatusDisabled), "") := by
  unfold cr010Eval
  rw [hp]
  rcases props with ⟨zr, pec, ap, au, policies⟩
  cases policies with
  | none => simp
  | some policies =>
    rcases policies with ⟨retention⟩
    cases retention with
    | none => simp
    | some retention =>
      rcases retention with ⟨status⟩
      cases status with
      | none => simp
      | some status => simp

/-- Witness of C12: a registry without policies, one whose retention policy has
no status, one with status `disabled` and one with status `enabled`. -/
theorem cr010_retention_witness :
    cr010Eval { ID := some "R1", Properties := some {} } exampleScanContext = some (true, "") ∧
    cr010Eval { ID := some "R1", Properties := some { Policies := some ⟨some ⟨none⟩⟩ } } exampleScanContext
      = some (true, "") ∧
    cr010Eval { ID := some "R1", Properties := some { Policies := some ⟨some ⟨some "disabled"⟩⟩ } }
        exampleScanContext = some (true, "") ∧
    cr010Eval { ID := some "R1", Properties := some { Policies := some ⟨some ⟨some "enabled"⟩⟩ } }
        exampleScanContext = some (false, "") :=
  ⟨cr010_retention { ID := some "R1", Properties := some {} } {} exampleScanContext rfl,
    cr010_retention { ID := some "R1", Properties := some { Policies := some ⟨some ⟨none⟩⟩ } }
      { Policies := some ⟨some ⟨none⟩⟩ } exampleScanContext rfl,
    cr010_retention { ID := some "R1", Properties := some { Policies := some ⟨some ⟨some "disabled"⟩⟩ } }
      { Policies := some ⟨some ⟨some "disabled"⟩⟩ } exampleScanContext rfl,
    cr010_retention { ID := some "R1", Properties := some { Policies := some ⟨some ⟨some "enabled"⟩⟩ } }
      { Policies := some ⟨some ⟨some "enabled"⟩⟩ } exampleScanContext rfl⟩

/-- Claim C15: for every `nb ≤ 0` (a scan with zero scanners has `nb = 0`),
`waitForReviews` returns nothing before it has consumed an event: on an empty
event stream it blocks for ever, every return leaves fewer events than it was
given, and a result delivery arriving first makes it return at once, without
error, exactly that list.  In a scan with zero scanners whose context never
expires no move is possible at all, so the collector stays in its `select`. -/
theorem waitForReviews_nonpositive {R : Type} (nb : Int) (hnb : nb ≤ 0) :
    waitForReviews nb ([] : List (Event R)) = none ∧
    (∀ (events rest : List (Event R)) (out : WaitResult R),
        waitForReviews nb events = some (out, rest) → rest.length < events.length) ∧
    (∀ (res : Slice R) (rest : List (Event R)),
        waitForReviews nb (Event.resCh res :: rest) = some ((some res.elems, none), rest)) ∧
    (∀ (c : Int) (moves : List (Action R)) (s : Sys R),
        run (Sys.init R 0 c) moves = some s → Action.expire ∉ moves →
          moves = [] ∧ s.collector = .waiting 0 []) := by
  have hone : ∀ (res : Slice R) (rest : List (Event R)),
      waitForReviews nb (Event.resCh res :: rest) = some ((some res.elems, none), rest) := by
    intro res rest
    unfold waitForReviews
    rw [waitLoop_result_last nb ⟨0, []⟩ res rest (by simp only; omega)]
    simp
  refine ⟨rfl, ?_, hone, ?_⟩
  · intro events rest out h
    cases events with
    | nil => cases h
    | cons ev tail =>
      cases ev with
      | ctxDone e =>
        simp only [waitForReviews, waitLoop, selectCase, Option.some.injEq, Prod.mk.injEq] at h
        rw [← h.2]; simp
      | errCh e =>
        simp only [waitForReviews, waitLoop, selectCase, Option.some.injEq, Prod.mk.injEq] at h
        rw [← h.2]; simp
      | resCh res =>
        rw [hone res tail] at h
        simp only [Option.some.injEq, Prod.mk.injEq] at h
        rw [← h.2]; simp
  · intro c moves s h hexp
    cases moves with
    | nil => cases h; exact ⟨rfl, rfl⟩
    | cons a tail =>
      exfalso
      cases a <;>
        simp [run, step, Sys.init, CollectorState.hasExited, Sys.deliver] at h hexp

/-- Witness of C15: `nb = 0`; a first result delivery `[7]` is returned at once,
the next delivery staying unconsumed. -/
theorem waitForReviews_nonpositive_witness :
    waitForReviews (0 : Int) ([] : List (Event Nat)) = none ∧
    waitForReviews (0 : Int) [Event.resCh (some [7]), Event.resCh (some [8])]
      = some ((some [7], none), [Event.resCh (some [8])]) ∧
    ([Event.resCh (some [8])] : List (Event Nat)).length
      < [Event.resCh (some [7]), Event.resCh (some [8])].length :=
  ⟨(waitForReviews_nonpositive 0 (by decide)).1,
    (waitForReviews_nonpositive 0 (by decide)).2.2.1 (some [7]) [Event.resCh (some [8])],
    (waitForReviews_nonpositive 0 (by decide)).2.1 _ _ (some [7], none)
      ((waitForReviews_nonpositive 0 (by decide)).2.2.1 (some [7]) [Event.resCh (some [8])])⟩

/-! ## Properties of `AKSAnalyzer.Review` and `CosmosDBAnalyzer.Review` per resource -/

/-- The loop over the agent pool profiles: when it does not panic every profile
is there, and `zones` ends true exactly when it started true and every profile
has at least two availability zones. -/
theorem aksZones_spec (l : List (Option ManagedClusterAgentPoolProfile)) :
    ∀ (z r : Bool), aksZones z l = some r →
      (r = true ↔ z = true ∧ ∀ p ∈ l, ∃ q, p = some q ∧ 2 ≤ q.AvailabilityZones.elems.length) := by
  induction l with
  | nil => intro z r h; simp [aksZones] at h; simp [h]
  | cons p rest ih =>
    intro z r h
    cases p with
    | none => simp [aksZones] at h
    | some q =>
      have hcond : (q.AvailabilityZones.isNone ||
          (q.AvailabilityZones.isSome && decide (q.AvailabilityZones.elems.length ≤ 1))) = true
            ↔ ¬ 2 ≤ q.AvailabilityZones.elems.length := by
        cases hq : q.AvailabilityZones with
        | none => simp [Slice.elems]
        | some xs => simp [Slice.elems]; omega
      unfold aksZones at h
      split at h
      · rename_i hc
        have hlt := hcond.mp hc
        have := ih false r h
        simp only [List.mem_cons, forall_eq_or_imp, Option.some.injEq, exists_eq_left']
        constructor
        · intro hr; have := this.mp hr; simp at this
        · intro hr; exact absurd hr.2.1 hlt
      · rename_i hc
        have hge : 2 ≤ q.AvailabilityZones.elems.length := by
          by_contra hn; exact hc (hcond.mpr hn)
        have := ih z r h
        simp only [List.mem_cons, forall_eq_or_imp, Option.some.injEq, exists_eq_left']
        constructor
        · intro hr; exact ⟨(this.mp hr).1, hge, (this.mp hr).2⟩
        · intro hr; exact this.mpr ⟨hr.1, hr.2.2⟩

/-- The SLA of an AKS cluster by tier and zones. -/
theorem aksSLA_spec (tier : String) (zones : Bool) :
    (aksSLA tier zones = "None" ↔ tier ≠ "Paid") ∧
    (aksSLA tier zones = "99.95%" ↔ tier = "Paid" ∧ zones = true) ∧
    (aksSLA tier zones = "99.9%" ↔ tier = "Paid" ∧ zones = false) := by
  unfold aksSLA
  by_cases ht : tier = "Paid"
  · cases zones <;> simp [ht]
  · simp [ht]

/-- What a result of `reviewCluster` says about its cluster. -/
theorem AKSAnalyzer.reviewCluster_spec (a : AKSAnalyzer) (rg : String) (c : ManagedCluster) (d : Bool)
    (r : AzureServiceResult) (h : a.reviewCluster rg c d = some r) :
    ∃ props tier, c.Properties = some props ∧ (c.SKU.bind fun k => k.Tier) = some tier ∧
      r.SKU = tier ∧
      (r.AvailabilityZones = true ↔
        ∀ p ∈ props.AgentPoolProfiles.elems, ∃ q, p = some q ∧ 2 ≤ q.AvailabilityZones.elems.length) ∧
      (r.SLA = "None" ↔ tier ≠ "Paid") ∧
      (r.SLA = "99.95%" ↔ tier = "Paid" ∧ r.AvailabilityZones = true) ∧
      (r.SLA = "99.9%" ↔ tier = "Paid" ∧ r.AvailabilityZones = false) := by
  unfold AKSAnalyzer.reviewCluster at h
  split at h
  · cases h
  · rename_i props hprops
    split at h
    · cases h
    · rename_i zones hz
      split at h
      · cases h
      · rename_i tier htier
        simp only at h
        split at h
        · simp only [Option.some.injEq] at h
          subst h
          have hzs := aksZones_spec _ true zones hz
          obtain ⟨s1, s2, s3⟩ := aksSLA_spec tier zones
          refine ⟨props, tier, hprops, htier, rfl, ?_, s1, s2, s3⟩
          simpa using hzs
        · cases h

/-- A successful loop of `AKSAnalyzer.Review` appends one result per cluster,
in order, each produced by `reviewCluster`. -/
theorem aksReviewLoop_success (a : AKSAnalyzer) (rg : String) (l : List (Option ManagedCluster)) :
    ∀ (acc results : List AzureServiceResult), a.reviewLoop rg acc l = some (some results, none) →
      ∃ rs, results = acc ++ rs ∧
        List.Forall₂ (fun c r => ∃ c' d, c = some c' ∧ a.reviewCluster rg c' d = some r) l rs := by
  induction l with
  | nil =>
    intro acc results h
    simp only [AKSAnalyzer.reviewLoop, Option.some.injEq, Prod.mk.injEq, and_true] at h
    exact ⟨[], by simp [h], List.Forall₂.nil⟩
  | cons c rest ih =>
    intro acc results h
    cases c with
    | none => simp [AKSAnalyzer.reviewLoop] at h
    | some c =>
      unfold AKSAnalyzer.reviewLoop at h
      split at h
      · cases h
      · split at h
        · simp at h
        · rename_i d hd
          split at h
          · cases h
          · rename_i r hr
            obtain ⟨rs, hrs, hall⟩ := ih _ _ h
            exact ⟨r :: rs, by simp [hrs], List.Forall₂.cons ⟨c, d, rfl, hr⟩ hall⟩

/-- Claim C13: for every AKS cluster processed by a successful
`AKSAnalyzer.Review` (the results correspond to the listed clusters one to one,
in order): the `AvailabilityZones` flag is true exactly when every agent pool
profile has at least 2 availability zones (so it is true without profiles); the
SLA is "None" exactly when the SKU tier is not "Paid", "99.95%" exactly when
the tier is "Paid" and the flag is true, "99.9%" exactly when the tier is
"Paid" and the flag is false. -/
theorem aks_review_zones_and_sla (a : AKSAnalyzer) (rg : String) (clusters : Slice (Option ManagedCluster))
    (results : List AzureServiceResult) (hl : a.listClusters rg = (clusters, none))
    (h : a.Review rg = some (some results, none)) :
    List.Forall₂ (fun c r => ∃ c' props tier, c = some c' ∧ c'.Properties = some props ∧
        (c'.SKU.bind fun k => k.Tier) = some tier ∧
        (r.AvailabilityZones = true ↔
          ∀ p ∈ props.AgentPoolProfiles.elems, ∃ q, p = some q ∧ 2 ≤ q.AvailabilityZones.elems.length) ∧
        (r.SLA = "None" ↔ tier ≠ "Paid") ∧
        (r.SLA = "99.95%" ↔ tier = "Paid" ∧ r.AvailabilityZones = true) ∧
        (r.SLA = "99.9%" ↔ tier = "Paid" ∧ r.AvailabilityZones = false))
      clusters.elems results := by
  unfold AKSAnalyzer.Review at h
  rw [hl] at h
  simp only at h
  obtain ⟨rs, hrs, hall⟩ := aksReviewLoop_success a rg _ _ _ h
  simp only [List.nil_append] at hrs
  subst hrs
  refine hall.imp ?_
  rintro c r ⟨c', d, rfl, hr⟩
  obtain ⟨props, tier, h1, h2, -, h4, h5, h6, h7⟩ := AKSAnalyzer.reviewCluster_spec a rg c' d r hr
  exact ⟨c', props, tier, rfl, h1, h2, h4, h5, h6, h7⟩

/-- Witness of C13: a "Paid" cluster with one agent pool in two zones and a
"Free" cluster without agent pools. -/
theorem aks_review_zones_and_sla_witness :
    exampleAKSOk.Review "rg"
      = some (some [⟨"sub-1", "rg", "aks1", "Paid", "99.95%", "t", "l", true, true, false, true⟩,
                    ⟨"sub-1", "rg", "aks2", "Free", "None", "t", "l", true, true, false, true⟩], none) ∧
    List.Forall₂ (fun (c : Option ManagedCluster) (r : AzureServiceResult) => ∃ c' props tier, c = some c' ∧ c'.Properties = some props ∧
        (c'.SKU.bind fun k => k.Tier) = some tier ∧
        (r.AvailabilityZones = true ↔
          ∀ p ∈ props.AgentPoolProfiles.elems, ∃ q, p = some q ∧ 2 ≤ q.AvailabilityZones.elems.length) ∧
        (r.SLA = "None" ↔ tier ≠ "Paid") ∧
        (r.SLA = "99.95%" ↔ tier = "Paid" ∧ r.AvailabilityZones = true) ∧
        (r.SLA = "99.9%" ↔ tier = "Paid" ∧ r.AvailabilityZones = false))
      (exampleAKSOk.listClusters "rg").1.elems
      [⟨"sub-1", "rg", "aks1", "Paid", "99.95%", "t", "l", true, true, false, true⟩,
       ⟨"sub-1", "rg", "aks2", "Free", "None", "t", "l", true, true, false, true⟩] :=
  ⟨by decide,
    aks_review_zones_and_sla exampleAKSOk "rg" (exampleAKSOk.listClusters "rg").1
      [⟨"sub-1", "rg", "aks1", "Paid", "99.95%", "t", "l", true, true, false, true⟩,
       ⟨"sub-1", "rg", "aks2", "Free", "None", "t", "l", true, true, false, true⟩] (by decide)
      (by decide)⟩

/-- The loop over the locations of a CosmosDB account: when it does not panic
the locations are all there with their flag `bs`, and the locals end as the
code leaves them. -/
theorem cosmosLocations_spec (l : List (Option CosmosLocation)) :
    ∀ (st st' : CosmosLocals), cosmosLocations st l = some st' →
      ∃ bs : List Bool, l = bs.map (fun b => some ⟨some b⟩) ∧
        st'.sla = (if bs.any id then "99.995%" else st.sla) ∧
        st'.availabilityZones = (st.availabilityZones || bs.any id) ∧
        st'.availabilityZonesNotEnabledInALocation
          = (st.availabilityZonesNotEnabledInALocation || bs.any (fun b => !b)) ∧
        st'.numberOfLocations = st.numberOfLocations + bs.length := by
  induction l with
  | nil =>
    intro st st' h
    simp only [cosmosLocations, Option.some.injEq] at h
    subst h
    exact ⟨[], by simp⟩
  | cons p rest ih =>
    intro st st' h
    cases p with
    | none => simp [cosmosLocations] at h
    | some loc =>
      rcases loc with ⟨zr⟩
      cases zr with
      | none => simp [cosmosLocations] at h
      | some b =>
        cases b with
        | true =>
          simp only [cosmosLocations] at h
          obtain ⟨bs, hl, h1, h2, h3, h4⟩ := ih _ _ h
          refine ⟨true :: bs, by simp [hl], ?_, ?_, ?_, ?_⟩
          · simp only [h1, List.any_cons, id, Bool.true_or, if_true]
            split <;> rfl
          · simp [h2]
          · simp [h3]
          · simp only [h4, List.length_cons, Nat.cast_add, Nat.cast_one]; omega
        | false =>
          simp only [cosmosLocations] at h
          obtain ⟨bs, hl, h1, h2, h3, h4⟩ := ih _ _ h
          refine ⟨false :: bs, by simp [hl], ?_, ?_, ?_, ?_⟩
          · simp [h1]
          · simp [h2]
          · simp [h3]
          · simp only [h4, List.length_cons, Nat.cast_add, Nat.cast_one]; omega

/-- Some listed location is zone redundant exactly when some flag is true. -/
theorem cosmos_any_redundant (bs : List Bool) :
    (∃ p ∈ bs.map (fun b => some (CosmosLocation.mk (some b))),
        (p.bind fun q => q.IsZoneRedundant) = some true) ↔ bs.any id = true := by
  simp only [List.mem_map, List.any_eq_true, id]
  constructor
  · rintro ⟨p, ⟨b, hb, rfl⟩, hp⟩
    simp only [Option.some_bind, Option.some.injEq] at hp
    exact ⟨b, hb, hp⟩
  · rintro ⟨b, hb, rfl⟩
    exact ⟨_, ⟨true, hb, rfl⟩, rfl⟩

/-- Every listed location is zone redundant exactly when no flag is false. -/
theorem cosmos_all_redundant (bs : List Bool) :
    (∀ p ∈ bs.map (fun b => some (CosmosLocation.mk (some b))),
        (p.bind fun q => q.IsZoneRedundant) = some true) ↔ bs.any (fun b => !b) = false := by
  rw [List.any_eq_false]
  simp only [List.mem_map]
  constructor
  · intro h b hb
    have := h _ ⟨b, hb, rfl⟩
    simp only [Option.some_bind, Option.some.injEq] at this
    simp [this]
  · rintro h p ⟨b, hb, rfl⟩
    have := h b hb
    simp only [Bool.not_eq_true', Bool.not_eq_false] at this
    simp [this]

/-- What a result of `reviewDatabase` says about its account. -/
theorem CosmosDBAnalyzer.reviewDatabase_spec (c : CosmosDBAnalyzer) (rg : String)
    (database : DatabaseAccountGetResults) (d : Bool) (r : AzureServiceResult)
    (h : c.reviewDatabase rg database d = some r) :
    ∃ props, database.Properties = some props ∧
      (r.AvailabilityZones = true ↔
        ∃ p ∈ props.Locations.elems, (p.bind fun q => q.IsZoneRedundant) = some true) ∧
      (r.SLA = "99.999%" ↔ 2 ≤ props.Locations.elems.length ∧
        ∀ p ∈ props.Locations.elems, (p.bind fun q => q.IsZoneRedundant) = some true) ∧
      (r.SLA = "99.995%" ↔
        (∃ p ∈ props.Locations.elems, (p.bind fun q => q.IsZoneRedundant) = some true) ∧
        ¬ (2 ≤ props.Locations.elems.length ∧
          ∀ p ∈ props.Locations.elems, (p.bind fun q => q.IsZoneRedundant) = some true)) ∧
      (r.SLA = "99.99%" ↔
        ¬ ∃ p ∈ props.Locations.elems, (p.bind fun q => q.IsZoneRedundant) = some true) := by
  unfold CosmosDBAnalyzer.reviewDatabase at h
  split at h
  · cases h
  · rename_i props hprops
    split at h
    · cases h
    · rename_i st hst
      simp only at h
      split at h
      · simp only [Option.some.injEq] at h
        subst h
        obtain ⟨bs, hl, h1, h2, h3, h4⟩ := cosmosLocations_spec _ _ _ hst
        refine ⟨props, hprops, ?_⟩
        have hA : (∃ p ∈ props.Locations.elems, (p.bind fun q => q.IsZoneRedundant) = some true)
            ↔ bs.any id = true := by
          rw [hl]; exact cosmos_any_redundant bs
        have hN : (∀ p ∈ props.Locations.elems, (p.bind fun q => q.IsZoneRedundant) = some true)
            ↔ bs.any (fun b => !b) = false := by
          rw [hl]; exact cosmos_all_redundant bs
        have hlen : props.Locations.elems.length = bs.length := by rw [hl]; simp
        have hne : 2 ≤ bs.length → bs.any (fun b => !b) = false → bs.any id = true := by
          intro h2 hn
          cases bs with
          | nil => simp at h2
          | cons b tl =>
            simp only [List.any_cons, Bool.or_eq_false_iff, Bool.not_eq_false'] at hn
            simp [hn.1]
        have hd : decide (st.numberOfLocations ≥ 2) = decide (2 ≤ bs.length) := by
          rw [h4]; simp only [zero_add]
          by_cases hb : 2 ≤ bs.length
          · have : ((bs.length : Int) ≥ 2) := by omega
            simp [hb, this]
          · have : ¬ ((bs.length : Int) ≥ 2) := by omega
            simp [hb, this]
        rw [hA, hN, hlen]
        simp only [h1, h2, h3, hd, Bool.false_or]
        by_cases hb : 2 ≤ bs.length
        · have hne2 := hne hb
          cases hAv : bs.any id <;> cases hNv : bs.any (fun b => !b) <;>
            simp [hAv, hNv, hb] at hne2 ⊢
        · cases hAv : bs.any id <;> cases hNv : bs.any (fun b => !b) <;>
            simp [hb]
      · cases h

/-- A successful loop of `CosmosDBAnalyzer.Review` appends one result per
account, in order, each produced by `reviewDatabase`. -/
theorem cosmosReviewLoop_success (c : CosmosDBAnalyzer) (rg : String)
    (l : List (Option DatabaseAccountGetResults)) :
    ∀ (acc results : List AzureServiceResult), c.reviewLoop rg acc l = some (some results, none) →
      ∃ rs, results = acc ++ rs ∧
        List.Forall₂ (fun db r => ∃ db' d, db = some db' ∧ c.reviewDatabase rg db' d = some r) l rs := by
  induction l with
  | nil =>
    intro acc results h
    simp only [CosmosDBAnalyzer.reviewLoop, Option.some.injEq, Prod.mk.injEq, and_true] at h
    exact ⟨[], by simp [h], List.Forall₂.nil⟩
  | cons db rest ih =>
    intro acc results h
    cases db with
    | none => simp [CosmosDBAnalyzer.reviewLoop] at h
    | some db =>
      unfold CosmosDBAnalyzer.reviewLoop at h
      split at h
      · cases h
      · split at h
        · simp at h
        · rename_i d hd
          split at h
          · cases h
          · rename_i r hr
            obtain ⟨rs, hrs, hall⟩ := ih _ _ h
            exact ⟨r :: rs, by simp [hrs], List.Forall₂.cons ⟨db, d, rfl, hr⟩ hall⟩

/-- Claim C14: for every CosmosDB account processed by a successful
`CosmosDBAnalyzer.Review` (the results correspond to the listed accounts one to
one, in order): the `AvailabilityZones` flag is true exactly when at least one
location is zone redundant; the SLA is "99.999%" exactly when the account has at
least 2 locations and all of them are zone redundant, "99.995%" exactly when at
least one location is zone redundant but that condition does not hold, and
"99.99%" exactly when no location is zone redundant (so also without
locations). -/
theorem cosmos_review_zones_and_sla (c : CosmosDBAnalyzer) (rg : String)
    (databases : Slice (Option DatabaseAccountGetResults)) (results : List AzureServiceResult)
    (hl : c.listDatabases rg = (databases, none))
    (h : c.Review rg = some (some results, none)) :
    List.Forall₂ (fun (db : Option DatabaseAccountGetResults) (r : AzureServiceResult) =>
        ∃ db' props, db = some db' ∧ db'.Properties = some props ∧
        (r.AvailabilityZones = true ↔
          ∃ p ∈ props.Locations.elems, (p.bind fun q => q.IsZoneRedundant) = some true) ∧
        (r.SLA = "99.999%" ↔ 2 ≤ props.Locations.elems.length ∧
          ∀ p ∈ props.Locations.elems, (p.bind fun q => q.IsZoneRedundant) = some true) ∧
        (r.SLA = "99.995%" ↔
          (∃ p ∈ props.Locations.elems, (p.bind fun q => q.IsZoneRedundant) = some true) ∧
          ¬ (2 ≤ props.Locations.elems.length ∧
            ∀ p ∈ props.Locations.elems, (p.bind fun q => q.IsZoneRedundant) = some true)) ∧
        (r.SLA = "99.99%" ↔
          ¬ ∃ p ∈ props.Locations.elems, (p.bind fun q => q.IsZoneRedundant) = some true))
      databases.elems results := by
  unfold CosmosDBAnalyzer.Review at h
  rw [hl] at h
  simp only at h
  obtain ⟨rs, hrs, hall⟩ := cosmosReviewLoop_success c rg _ _ _ h
  simp only [List.nil_append] at hrs
  subst hrs
  refine hall.imp ?_
  rintro db r ⟨db', d, rfl, hr⟩
  obtain ⟨props, h1, h2, h3, h4, h5⟩ := CosmosDBAnalyzer.reviewDatabase_spec c rg db' d r hr
  exact ⟨db', props, rfl, h1, h2, h3, h4, h5⟩

/-- Witness of C14: an account with one zone redundant location ("99.995%"),
one with two zone redundant locations ("99.999%") and one with two locations
that are not zone redundant ("99.99%"). -/
theorem cosmos_review_zones_and_sla_witness :
    exampleCosmosOk.Review "rg"
      = some (some [⟨"sub-1", "rg", "cosmos1", "Standard", "99.995%", "t", "l", true, true, false, false⟩,
                    ⟨"sub-1", "rg", "db2", "Standard", "99.999%", "t", "l", false, true, false, false⟩,
                    ⟨"sub-1", "rg", "db3", "Standard", "99.99%", "t", "l", false, false, false, false⟩],
          none) ∧
    List.Forall₂ (fun (db : Option DatabaseAccountGetResults) (r : AzureServiceResult) =>
        ∃ db' props, db = some db' ∧ db'.Properties = some props ∧
        (r.AvailabilityZones = true ↔
          ∃ p ∈ props.Locations.elems, (p.bind fun q => q.IsZoneRedundant) = some true) ∧
        (r.SLA = "99.999%" ↔ 2 ≤ props.Locations.elems.length ∧
          ∀ p ∈ props.Locations.elems, (p.bind fun q => q.IsZoneRedundant) = some true) ∧
        (r.SLA = "99.995%" ↔
          (∃ p ∈ props.Locations.elems, (p.bind fun q => q.IsZoneRedundant) = some true) ∧
          ¬ (2 ≤ props.Locations.elems.length ∧
            ∀ p ∈ props.Locations.elems, (p.bind fun q => q.IsZoneRedundant) = some true)) ∧
        (r.SLA = "99.99%" ↔
          ¬ ∃ p ∈ props.Locations.elems, (p.bind fun q => q.IsZoneRedundant) = some true))
      (exampleCosmosOk.listDatabases "rg").1.elems
      [⟨"sub-1", "rg", "cosmos1", "Standard", "99.995%", "t", "l", true, true, false, false⟩,
       ⟨"sub-1", "rg", "db2", "Standard", "99.999%", "t", "l", false, true, false, false⟩,
       ⟨"sub-1", "rg", "db3", "Standard", "99.99%", "t", "l", false, false, false, false⟩] :=
  ⟨by decide,
    cosmos_review_zones_and_sla exampleCosmosOk "rg" (exampleCosmosOk.listDatabases "rg").1
      [⟨"sub-1", "rg", "cosmos1", "Standard", "99.995%", "t", "l", true, true, false, false⟩,
       ⟨"sub-1", "rg", "db2", "Standard", "99.999%", "t", "l", false, true, false, false⟩,
       ⟨"sub-1", "rg", "db3", "Standard", "99.99%", "t", "l", false, false, false, false⟩]
      (by decide) (by decide)⟩

end Azqr
